import Mathlib

/-!
# AdaDisk agents: dataset and index lifecycle

A shallow embedding of `agents/agent_ingest.cpp` (the producer) and
`agents/agent_query.cpp` (the consumer) of the AdaDisk drivers built on DiskANN.

Conventions of the embedding.

* The file system is a map from paths to nodes, together with the answers the
  operating system gives when `std::ofstream` opens a path for writing and when
  bytes are written to it: how many bytes the device takes before writes fail.
* `size_t` is `Nat` reduced modulo `2^64`; `int32_t` is `Int`, stored as its
  two's complement pattern in four little-endian bytes (x86-64 Linux, the
  platform of `linux_aligned_file_reader.h`).
* `float` is IEEE-754 binary32; a finite value is the rational it denotes and
  every operation rounds to nearest, ties to even.
* `rand()` is the sequence of values its successive calls return, `RAND_MAX` is a
  parameter (it is a macro of the C library).
* `std::system`, `PQFlashIndex::load` and `PQFlashIndex::cached_beam_search`
  belong to the external engine and are fields of `Env`.
* `generate_data_call` is a call of `generate_data` with its exception: the
  constructor of `std::vector<T> vec(n * d)` throws when the count exceeds
  `max_size()` or the allocation fails.  The two `main` functions are embedded for
  the runs in which no C++ exception escapes (a failing `create_directory`, a
  failing allocation).  `std::cout` is not recorded; each message on `std::cerr`
  is.
-/

namespace AdaDisk

/-! ## File system -/

/-- A file system object: a directory, or a regular file with its bytes. -/
inductive Node where
  | dir : Node
  | file (bytes : List Nat) : Node
  deriving DecidableEq, Repr

/-- The state of the file system shared by the agent processes. -/
structure FS where
  /-- what is stored at a path, if anything -/
  node : String → Option Node
  /-- whether `std::ofstream out(path, std::ios::binary)` opens successfully -/
  writable : String → Bool
  /-- how many bytes a stream opened on the path gets onto the device before its
  writes fail (a full disk, a quota); later writes are lost, as the stream is never
  tested -/
  room : String → Nat

/-- Model of `fs::exists(p)`. -/
def fs_exists (fs : FS) (p : String) : Bool := (fs.node p).isSome

/-- The bytes of the regular file at `p`. -/
def fs_bytes (fs : FS) (p : String) : Option (List Nat) :=
  match fs.node p with
  | some (Node.file bs) => some bs
  | _ => none

/-- Store node `x` at path `p`. -/
def fs_put (fs : FS) (p : String) (x : Node) : FS :=
  { fs with node := fun q => if q = p then some x else fs.node q }

/-! ## Machine integers -/

/-- Number of values of `size_t`. -/
def SIZE_T_MOD : Nat := 2 ^ 64

/-- The cast `(int32_t)n` of a `size_t`: reduction modulo `2^32` read as two's complement. -/
def int32_of_size_t (n : Nat) : Int :=
  let m : Nat := n % 2 ^ 32
  if m < 2 ^ 31 then (m : Int) else (m : Int) - 2 ^ 32

/-- Four little-endian bytes of a 32-bit word. -/
def le_bytes32 (w : Nat) : List Nat :=
  [w % 256, w / 256 % 256, w / 65536 % 256, w / 16777216 % 256]

/-- Object representation of an `int32_t`, as written by `out.write((char*)&v, 4)`. -/
def int32_bytes (v : Int) : List Nat := le_bytes32 (v % 2 ^ 32).toNat

/-- Read an `int32_t` back from the first four bytes of a buffer. -/
def read_int32 (bs : List Nat) : Option Int :=
  match bs with
  | b0 :: b1 :: b2 :: b3 :: _ =>
    let w := b0 + 256 * b1 + 65536 * b2 + 16777216 * b3
    some (if w < 2 ^ 31 then (w : Int) else (w : Int) - 2 ^ 32)
  | _ => none

/-! ## binary32 arithmetic -/

/-- Round a rational to the nearest integer, ties to even. -/
def round_even (x : ℚ) : ℤ :=
  let f := ⌊x⌋
  let d := x - f
  if d < 1 / 2 then f else if 1 / 2 < d then f + 1 else if f % 2 = 0 then f else f + 1

/-- Exponent of the unit in the last place of binary32 at magnitude `q`
(24 significant bits, subnormals below `2^-126`). -/
def f32_ulp_exp (q : ℚ) : ℤ := max (Int.log 2 q - 23) (-149)

/-- Round a non-negative rational below the overflow threshold to binary32. -/
def f32_round (q : ℚ) : ℚ :=
  if q = 0 then 0 else (round_even (q / (2 : ℚ) ^ f32_ulp_exp q) : ℚ) * (2 : ℚ) ^ f32_ulp_exp q

/-- The conversion `(float)i` of a non-negative `int`. -/
def f32_of_int (i : Nat) : ℚ := f32_round (i : ℚ)

/-- The binary32 quotient `a / b`. -/
def f32_div (a b : ℚ) : ℚ := f32_round (a / b)

/-- Bit pattern of a non-negative finite binary32 value. -/
def f32_bits (x : ℚ) : Nat :=
  if x = 0 then 0
  else
    let e := Int.log 2 x
    if e < -126 then ⌊x * (2 : ℚ) ^ (149 : ℤ)⌋.toNat
    else (e + 127).toNat * 2 ^ 23 + (⌊x / (2 : ℚ) ^ (e - 23)⌋.toNat - 2 ^ 23)

/-- Object representation of a `float`. -/
def f32_bytes (x : ℚ) : List Nat := le_bytes32 (f32_bits x)

/-! ## Data generation -/

/-- The element `(T)rand() / RAND_MAX` for `T = float`, where `r` is the value of `rand()`. -/
def rand_element (RAND_MAX r : Nat) : ℚ := f32_div (f32_of_int r) (f32_of_int RAND_MAX)

/-- The vector filled by `for(auto& x : vec) x = (T)rand() / RAND_MAX;`. -/
def rand_vector (RAND_MAX : Nat) (rand : Nat → Nat) (len : Nat) : List ℚ :=
  (List.range len).map fun i => rand_element RAND_MAX (rand i)

/-- The random source after `k` calls of `rand()`. -/
def rand_advance (rand : Nat → Nat) (k : Nat) : Nat → Nat := fun i => rand (i + k)

/-- Bytes that `generate_data<float>` hands to the stream: the two header words,
then `vec.size() * sizeof(T)` bytes of the vector. -/
def generate_bytes (RAND_MAX : Nat) (rand : Nat → Nat) (n d : Nat) : List Nat :=
  let n_pts := int32_of_size_t n
  let dim := int32_of_size_t d
  let vec := rand_vector RAND_MAX rand (n * d % SIZE_T_MOD)
  int32_bytes n_pts ++ int32_bytes dim ++
    (vec.flatMap f32_bytes).take (vec.length * 4 % SIZE_T_MOD)

/-- Model of `generate_data<float>(filename, n, d)` when its vector is constructed.
When the stream cannot be opened every `write` is a no-op and the function returns
as usual.  When it is opened the file is truncated and receives the bytes handed to
the stream up to the room the device has; the rest is lost without notice, since
the stream is never tested. -/
def generate_data (RAND_MAX : Nat) (rand : Nat → Nat) (fs : FS) (filename : String)
    (n d : Nat) : FS × (Nat → Nat) :=
  let fs1 :=
    if fs.writable filename then
      fs_put fs filename
        (Node.file ((generate_bytes RAND_MAX rand n d).take (fs.room filename)))
    else fs
  (fs1, rand_advance rand (n * d % SIZE_T_MOD))

/-- What the C++ runtime answers to `std::vector<float> vec(count)`. -/
structure Allocator where
  /-- the value of `std::vector<float>::max_size()` -/
  max_size : Nat
  /-- whether `operator new` supplies a block of that many bytes -/
  allocate : Nat → Bool

/-- Whether `std::vector<float> vec(count)` is constructed: it throws
`std::length_error` when `count` exceeds `max_size()` and `std::bad_alloc` when the
block of `count * sizeof(float)` bytes is refused; an empty vector allocates
nothing. -/
def vector_constructs (A : Allocator) (count : Nat) : Bool :=
  decide (count ≤ A.max_size) && (decide (count = 0) || A.allocate (count * 4))

/-- A call of `generate_data<float>(filename, n, d)`: `none` when the constructor of
`vec` throws, so that the call does not return, and the state `generate_data`
returns otherwise. -/
def generate_data_call (A : Allocator) (RAND_MAX : Nat) (rand : Nat → Nat) (fs : FS)
    (filename : String) (n d : Nat) : Option (FS × (Nat → Nat)) :=
  if vector_constructs A (n * d % SIZE_T_MOD) then
    some (generate_data RAND_MAX rand fs filename n d)
  else none

/-! ## Processes, calls and the external engine -/

/-- A call made by an agent process, with its arguments and, where the agent
looks at it, the value returned. -/
inductive Call where
  | fs_exists (p : String) (found : Bool) : Call
  | create_directory (p : String) : Call
  | generate_data (filename : String) (n d : Nat) : Call
  | system (cmd : String) (ret : Int) : Call
  | load (num_threads : Nat) (index_path : String) (ret : Int) : Call
  | cached_beam_search (query : List ℚ) (k l_search beam_width : Nat) : Call
  | cerr (msg : String) : Call
  deriving DecidableEq

/-- Whether a call is a call of `generate_data`. -/
def Call.is_generate : Call → Bool
  | Call.generate_data _ _ _ => true
  | _ => false

/-- Whether a call is an invocation of `std::system`. -/
def Call.is_system : Call → Bool
  | Call.system _ _ => true
  | _ => false

/-- Whether a call is `PQFlashIndex::load`. -/
def Call.is_load : Call → Bool
  | Call.load _ _ _ => true
  | _ => false

/-- Whether a call is `PQFlashIndex::cached_beam_search`. -/
def Call.is_search : Call → Bool
  | Call.cached_beam_search _ _ _ _ => true
  | _ => false

/-- Whether a call writes a message to `std::cerr`. -/
def Call.is_cerr : Call → Bool
  | Call.cerr _ => true
  | _ => false

/-- The platform and the external collaborators of an agent. -/
structure Env where
  /-- the macro `RAND_MAX` of the C library -/
  RAND_MAX : Nat
  /-- `std::system(cmd)`: the status returned and the file system the command leaves -/
  system : String → FS → Int × FS
  /-- `PQFlashIndex::load(num_threads, index_prefix)`: the status returned;
  the engine opens the index files for reading only -/
  load : Nat → String → FS → Int
  /-- the dimension recorded in the index artifacts stored under a path, which a
  successful `load` makes the dimension of the index -/
  data_dim : String → FS → Nat

/-- What a process has at hand between two statements of `main`. -/
structure State where
  fs : FS
  rand : Nat → Nat
  trace : List Call

/-- A finished run of `main`: the exit code, the file system left behind and the
calls made, in order. -/
structure Run where
  code : Int
  fs : FS
  trace : List Call

/-- Model of `std::to_string` on a `size_t`. -/
def to_string (n : Nat) : String := toString n

/-- Statement `if (!fs::exists(DIR)) fs::create_directory(DIR);` with its calls recorded. -/
def make_dir (dir : String) (s : State) : State :=
  if fs_exists s.fs dir then
    { s with trace := s.trace ++ [Call.fs_exists dir true] }
  else
    { s with fs := fs_put s.fs dir Node.dir,
             trace := s.trace ++ [Call.fs_exists dir false, Call.create_directory dir] }

/-- Statement `generate_data<float>(filename, n, d);` with its call recorded, in a
run where the call returns. -/
def call_generate (E : Env) (filename : String) (n d : Nat) (s : State) : State :=
  let g := generate_data E.RAND_MAX s.rand s.fs filename n d
  { fs := g.1, rand := g.2, trace := s.trace ++ [Call.generate_data filename n d] }

/-- Statement `int ret = std::system(cmd.c_str());` with its call recorded. -/
def call_system (E : Env) (cmd : String) (s : State) : Int × State :=
  let r := E.system cmd s.fs
  (r.1, { s with fs := r.2, trace := s.trace ++ [Call.system cmd r.1] })

/-- End of `main` by `return code;`. -/
def finish (code : Int) (s : State) : Run := { code := code, fs := s.fs, trace := s.trace }

/-- Write a message to `std::cerr`. -/
def put_cerr (msg : String) (s : State) : State :=
  { s with trace := s.trace ++ [Call.cerr msg] }

/-! ## The producer: `agents/agent_ingest.cpp` -/

namespace agent_ingest

def DIR : String := "./hpdic_data"
def DATA_FILE : String := DIR ++ "/ingest_raw.bin"
def INDEX_PREFIX : String := DIR ++ "/ingest_index"
def BUILDER_BIN : String := "/home/cc/DiskANN/build/apps/build_disk_index"
def DIM : Nat := 128
def NUM_POINTS : Nat := 10000
def NUM_THREADS : Nat := 4

/-- The command line `cmd` handed to `std::system`. -/
def cmd : String :=
  BUILDER_BIN ++ " " ++ "--data_type float --dist_fn l2 " ++ "--data_path " ++ DATA_FILE ++ " "
    ++ "--index_path_prefix " ++ INDEX_PREFIX ++ " "
    ++ "-R 32 -L 50 -B 0.1 -M 0.1 -T " ++ to_string NUM_THREADS

/-- State of the producer when it is about to call `std::system`. -/
def before_build (E : Env) (fs : FS) (rand : Nat → Nat) : State :=
  call_generate E DATA_FILE NUM_POINTS DIM (make_dir DIR { fs := fs, rand := rand, trace := [] })

/-- Model of `main` of `agent_ingest.cpp`. -/
def main (E : Env) (fs : FS) (rand : Nat → Nat) : Run :=
  let b := call_system E cmd (before_build E fs rand)
  if b.1 ≠ 0 then
    finish 1 (put_cerr "[Agent Ingest] Error: Build failed! Check builder path.\n" b.2)
  else finish 0 b.2

end agent_ingest

/-! ## The consumer: `agents/agent_query.cpp` -/

namespace agent_query

def DIR : String := "./hpdic_data"
def DATA_FILE : String := DIR ++ "/query_raw.bin"
def INDEX_PREFIX : String := DIR ++ "/query_index"
def INDEX_CHECK_FILE : String := INDEX_PREFIX ++ "_disk.index"
def BUILDER_BIN : String := "/home/cc/DiskANN/build/apps/build_disk_index"
def DIM : Nat := 128
def NUM_POINTS : Nat := 10000
def NUM_THREADS : Nat := 4

/-- The command line `cmd` handed to `std::system`. -/
def cmd : String :=
  BUILDER_BIN ++ " " ++ "--data_type float --dist_fn l2 " ++ "--data_path " ++ DATA_FILE ++ " "
    ++ "--index_path_prefix " ++ INDEX_PREFIX ++ " "
    ++ "-R 32 -L 50 -B 0.1 -M 0.1 -T " ++ to_string NUM_THREADS

/-- Step 1, the data check: `generate_data` runs only when the data file is missing. -/
def data_check (E : Env) (s : State) : State :=
  if fs_exists s.fs DATA_FILE then
    { s with trace := s.trace ++ [Call.fs_exists DATA_FILE true] }
  else
    call_generate E DATA_FILE NUM_POINTS DIM
      { s with trace := s.trace ++ [Call.fs_exists DATA_FILE false] }

/-- State of the consumer when it reaches the index check of step 2. -/
def before_index_check (E : Env) (fs : FS) (rand : Nat → Nat) : State :=
  data_check E (make_dir DIR { fs := fs, rand := rand, trace := [] })

/-- Step 4: the simulated query and the call of `cached_beam_search`. -/
def search (E : Env) (s : State) : Run :=
  let query := rand_vector E.RAND_MAX s.rand DIM
  finish 0 { s with rand := rand_advance s.rand DIM,
                    trace := s.trace ++ [Call.cached_beam_search query 5 20 4] }

/-- Step 3 and step 4: load the index, give up when `load` fails, search otherwise. -/
def load_and_search (E : Env) (s : State) : Run :=
  let load_ret := E.load NUM_THREADS INDEX_PREFIX s.fs
  let s1 := { s with trace := s.trace ++ [Call.load NUM_THREADS INDEX_PREFIX load_ret] }
  if load_ret ≠ 0 then finish 1 (put_cerr "Error: Load failed.\n" s1)
  else search E s1

/-- Step 2 onwards: the index check, the build when the sentinel is missing, then
load and search. -/
def index_check (E : Env) (s : State) : Run :=
  if fs_exists s.fs INDEX_CHECK_FILE then
    load_and_search E { s with trace := s.trace ++ [Call.fs_exists INDEX_CHECK_FILE true] }
  else
    let b := call_system E cmd { s with trace := s.trace ++ [Call.fs_exists INDEX_CHECK_FILE false] }
    if b.1 ≠ 0 then
      finish 1 (put_cerr ("Error: Build failed! Check path: " ++ BUILDER_BIN ++ "\n") b.2)
    else load_and_search E b.2

/-- Model of `main` of `agent_query.cpp`. -/
def main (E : Env) (fs : FS) (rand : Nat → Nat) : Run :=
  index_check E (before_index_check E fs rand)

end agent_query

/-- The file at `path` is a dataset of `N` points of dimension `D`: it has
`8 + 4*N*D` bytes, the first four read back as `N` and the next four as `D`. -/
def dataset_file_ok (fs : FS) (path : String) (N D : Nat) : Prop :=
  ∃ bs, fs_bytes fs path = some bs ∧ bs.length = 8 + 4 * N * D ∧
    read_int32 bs = some (N : Int) ∧ read_int32 (bs.drop 4) = some (D : Int)

/-- A file system with nothing in it where every path can be opened for writing and
takes `2^64` bytes. -/
def FS.blank : FS :=
  { node := fun _ => none, writable := fun _ => true, room := fun _ => 2 ^ 64 }

/-- Number of calls of `generate_data` in a trace. -/
def generate_calls (t : List Call) : Nat := t.countP Call.is_generate

/-- Number of invocations of `std::system`, the external build command, in a trace. -/
def build_calls (t : List Call) : Nat := t.countP Call.is_system

/-- An engine on a glibc platform whose build command and `load` both succeed and
leave the file system alone; its indexes have dimension 128. -/
def Env.quiet : Env :=
  { RAND_MAX := 2147483647, system := fun _ fs => (0, fs), load := fun _ _ _ => 0,
    data_dim := fun _ _ => 128 }

/-- A file system holding the consumer's directory, data file and sentinel file. -/
def agent_query.ready_fs : FS :=
  { node := fun p =>
      if p = agent_query.DIR then some Node.dir
      else if p = agent_query.DATA_FILE then some (Node.file [])
      else if p = agent_query.INDEX_CHECK_FILE then some (Node.file [])
      else none,
    writable := fun _ => true, room := fun _ => 2 ^ 64 }

/-- Whether a call is an invocation of the build command that returned a nonzero status. -/
def Call.is_failed_build : Call → Bool
  | Call.system _ ret => decide (ret ≠ 0)
  | _ => false

/-- Whether a call is a `load` that returned a nonzero status. -/
def Call.is_failed_load : Call → Bool
  | Call.load _ _ ret => decide (ret ≠ 0)
  | _ => false

/-- Number of calls of `load` in a trace. -/
def load_calls (t : List Call) : Nat := t.countP Call.is_load

/-- Number of calls of `cached_beam_search` in a trace. -/
def search_calls (t : List Call) : Nat := t.countP Call.is_search

/-- The two agents. -/
inductive Agent where
  | producer : Agent
  | consumer : Agent
  deriving DecidableEq

/-- A run of an agent. -/
def Agent.run : Agent → Env → FS → (Nat → Nat) → Run
  | Agent.producer => agent_ingest.main
  | Agent.consumer => agent_query.main

/-- The file system an agent has reached when it decides about the build: for the
producer after its step 1, for the consumer after its data check. -/
def Agent.fs_at_build : Agent → Env → FS → (Nat → Nat) → FS
  | Agent.producer, E, fs, rand => (agent_ingest.before_build E fs rand).fs
  | Agent.consumer, E, fs, rand => (agent_query.before_index_check E fs rand).fs

/-- The build command line of an agent. -/
def Agent.cmd : Agent → String
  | Agent.producer => agent_ingest.cmd
  | Agent.consumer => agent_query.cmd

/-- An engine whose build command fails with status 1 and touches nothing. -/
def Env.broken : Env :=
  { RAND_MAX := 2147483647, system := fun _ fs => (1, fs), load := fun _ _ _ => 0,
    data_dim := fun _ _ => 128 }

/-- Whether a call is a `load` that returned status 0. -/
def Call.is_loaded : Call → Bool
  | Call.load _ _ ret => decide (ret = 0)
  | _ => false

/-- Length of the query vector handed to `cached_beam_search`, for a search call. -/
def Call.query_length : Call → Option Nat
  | Call.cached_beam_search query _ _ _ => some query.length
  | _ => none

/-- An engine whose build command and `load` succeed and whose index under every
path was built from 64-dimensional data. -/
def Env.dim64 : Env :=
  { RAND_MAX := 2147483647, system := fun _ fs => (0, fs), load := fun _ _ _ => 0,
    data_dim := fun _ _ => 64 }

/-- Where a consumer process stands in `main`. -/
inductive agent_query.Pc where
  | start : agent_query.Pc
  | data_check : agent_query.Pc
  | generate : agent_query.Pc
  | index_check : agent_query.Pc
  | build : agent_query.Pc
  | load : agent_query.Pc
  | search : agent_query.Pc
  | exited (code : Int) : agent_query.Pc
  deriving DecidableEq

/-- The private part of a consumer process: its position, its random source and
the calls it has made. -/
structure agent_query.Proc where
  pc : agent_query.Pc
  rand : Nat → Nat
  trace : List Call

/-- One step of a consumer process on the shared file system. -/
def agent_query.step (E : Env) (p : agent_query.Proc) (fs : FS) : agent_query.Proc × FS :=
  match p.pc with
  | agent_query.Pc.start =>
    let s := make_dir agent_query.DIR { fs := fs, rand := p.rand, trace := p.trace }
    ({ pc := agent_query.Pc.data_check, rand := s.rand, trace := s.trace }, s.fs)
  | agent_query.Pc.data_check =>
    if fs_exists fs agent_query.DATA_FILE then
      ({ p with pc := agent_query.Pc.index_check,
                trace := p.trace ++ [Call.fs_exists agent_query.DATA_FILE true] }, fs)
    else
      ({ p with pc := agent_query.Pc.generate,
                trace := p.trace ++ [Call.fs_exists agent_query.DATA_FILE false] }, fs)
  | agent_query.Pc.generate =>
    let s := call_generate E agent_query.DATA_FILE agent_query.NUM_POINTS agent_query.DIM
      { fs := fs, rand := p.rand, trace := p.trace }
    ({ pc := agent_query.Pc.index_check, rand := s.rand, trace := s.trace }, s.fs)
  | agent_query.Pc.index_check =>
    if fs_exists fs agent_query.INDEX_CHECK_FILE then
      ({ p with pc := agent_query.Pc.load,
                trace := p.trace ++ [Call.fs_exists agent_query.INDEX_CHECK_FILE true] }, fs)
    else
      ({ p with pc := agent_query.Pc.build,
                trace := p.trace ++ [Call.fs_exists agent_query.INDEX_CHECK_FILE false] }, fs)
  | agent_query.Pc.build =>
    let b := call_system E agent_query.cmd { fs := fs, rand := p.rand, trace := p.trace }
    if b.1 ≠ 0 then
      ({ pc := agent_query.Pc.exited 1, rand := p.rand,
         trace := (put_cerr ("Error: Build failed! Check path: " ++ agent_query.BUILDER_BIN
           ++ "\n") b.2).trace }, b.2.fs)
    else ({ pc := agent_query.Pc.load, rand := p.rand, trace := b.2.trace }, b.2.fs)
  | agent_query.Pc.load =>
    let load_ret := E.load agent_query.NUM_THREADS agent_query.INDEX_PREFIX fs
    let t := p.trace ++ [Call.load agent_query.NUM_THREADS agent_query.INDEX_PREFIX load_ret]
    if load_ret ≠ 0 then
      ({ pc := agent_query.Pc.exited 1, rand := p.rand,
         trace := t ++ [Call.cerr "Error: Load failed.\n"] }, fs)
    else ({ pc := agent_query.Pc.search, rand := p.rand, trace := t }, fs)
  | agent_query.Pc.search =>
    ({ pc := agent_query.Pc.exited 0, rand := rand_advance p.rand agent_query.DIM,
       trace := p.trace ++ [Call.cached_beam_search
         (rand_vector E.RAND_MAX p.rand agent_query.DIM) 5 20 4] }, fs)
  | agent_query.Pc.exited _ => (p, fs)

/-- A consumer process at the entry of `main`. -/
def agent_query.Proc.init (rand : Nat → Nat) : agent_query.Proc :=
  { pc := agent_query.Pc.start, rand := rand, trace := [] }

/-- A consumer process running alone for `k` steps. -/
def agent_query.run_alone (E : Env) : Nat → agent_query.Proc × FS → agent_query.Proc × FS
  | 0, c => c
  | k + 1, c => agent_query.run_alone E k (agent_query.step E c.1 c.2)

/-- Two consumer processes and the file system they share. -/
structure Pair where
  a : agent_query.Proc
  b : agent_query.Proc
  fs : FS

/-- One step of the pair: the scheduler picks the first process (`true`) or the
second (`false`). -/
def Pair.step (E : Env) (s : Pair) (first : Bool) : Pair :=
  if first then
    let r := agent_query.step E s.a s.fs
    { a := r.1, b := s.b, fs := r.2 }
  else
    let r := agent_query.step E s.b s.fs
    { a := s.a, b := r.1, fs := r.2 }

/-- The pair after a schedule, a list of picks. -/
def Pair.run (E : Env) (sched : List Bool) (s : Pair) : Pair := sched.foldl (Pair.step E) s

/-- Two consumer processes started on the same file system. -/
def Pair.init (fs : FS) (ra rb : Nat → Nat) : Pair :=
  { a := agent_query.Proc.init ra, b := agent_query.Proc.init rb, fs := fs }

/-- The schedule in which the two processes take turns for ten steps: both reach
the build before either has finished a stage the other still has to check. -/
def Pair.lockstep : List Bool :=
  [true, false, true, false, true, false, true, false, true, false]

/-- A configuration of the stepwise consumer is the end of the run `r` of `main`. -/
def agent_query.ends_as (c : agent_query.Proc × FS) (r : Run) : Prop :=
  c.1.pc = agent_query.Pc.exited r.code ∧ c.1.trace = r.trace ∧ c.2 = r.fs

/-- The file system on which the first build of the lockstep schedule runs: the
directory statement of the first process, then both generations. -/
def Pair.fs_at_build (E : Env) (fs : FS) (ra rb : Nat → Nat) : FS :=
  (generate_data E.RAND_MAX rb
    (generate_data E.RAND_MAX ra
      (make_dir agent_query.DIR { fs := fs, rand := ra, trace := [] }).fs
      agent_query.DATA_FILE agent_query.NUM_POINTS agent_query.DIM).1
    agent_query.DATA_FILE agent_query.NUM_POINTS agent_query.DIM).1

/-- A file system holding the consumer's directory and an index sentinel, but no
data file. -/
def agent_query.index_only_fs : FS :=
  { node := fun p =>
      if p = agent_query.DIR then some Node.dir
      else if p = agent_query.INDEX_CHECK_FILE then some (Node.file [])
      else none,
    writable := fun _ => true, room := fun _ => 2 ^ 64 }

/-- Whether a call is one of the pipeline stages before the search: `generate_data`,
the build command or `load`. -/
def Call.is_stage (c : Call) : Bool := c.is_generate || c.is_system || c.is_load

/-- The runtime of libstdc++ on x86-64 with memory to spare: `max_size()` is
`PTRDIFF_MAX / sizeof(float)` and every block is supplied. -/
def Allocator.roomy : Allocator := { max_size := 2 ^ 61 - 1, allocate := fun _ => true }

/-! # Properties -/

theorem le_bytes32_length (w : Nat) : (le_bytes32 w).length = 4 := rfl

theorem drop_le_bytes32 (w : Nat) (rest : List Nat) :
    (le_bytes32 w ++ rest).drop 4 = rest := rfl

theorem flatMap_f32_bytes_length (v : List ℚ) : (v.flatMap f32_bytes).length = 4 * v.length := by
  induction v with
  | nil => rfl
  | cons x xs ih =>
    simp only [List.flatMap_cons, List.length_append, List.length_cons, ih]
    simp only [f32_bytes, le_bytes32_length]
    omega

theorem rand_vector_length (RM : Nat) (rand : Nat → Nat) (len : Nat) :
    (rand_vector RM rand len).length = len := by
  simp [rand_vector]

theorem int32_bytes_small (N : Nat) (h : N < 2 ^ 31) :
    int32_bytes (int32_of_size_t N) = le_bytes32 N := by
  have h1 : N % 2 ^ 32 = N := Nat.mod_eq_of_lt (by omega)
  have h2 : int32_of_size_t N = (N : Int) := by
    simp only [int32_of_size_t, h1, if_pos h]
  rw [h2, int32_bytes]
  congr 1

theorem read_int32_le_bytes32 (N : Nat) (h : N < 2 ^ 31) (rest : List Nat) :
    read_int32 (le_bytes32 N ++ rest) = some (N : Int) := by
  have hw : N % 256 + 256 * (N / 256 % 256) + 65536 * (N / 65536 % 256)
      + 16777216 * (N / 16777216 % 256) = N := by omega
  simp only [le_bytes32, List.cons_append, List.nil_append, read_int32, hw, if_pos h]

theorem generate_bytes_length (RM : Nat) (rand : Nat → Nat) (N D : Nat)
    (hN : N < 2 ^ 31) (hD : D < 2 ^ 31) :
    (generate_bytes RM rand N D).length = 8 + 4 * N * D := by
  have hND : N * D < 2 ^ 62 := by
    calc N * D < 2 ^ 31 * 2 ^ 31 := Nat.mul_lt_mul'' hN hD
      _ = 2 ^ 62 := by norm_num
  have h1 : N * D % SIZE_T_MOD = N * D := Nat.mod_eq_of_lt (by simp only [SIZE_T_MOD]; omega)
  have h2 : N * D * 4 % SIZE_T_MOD = N * D * 4 :=
    Nat.mod_eq_of_lt (by simp only [SIZE_T_MOD]; omega)
  simp only [generate_bytes, List.length_append, List.length_take, rand_vector_length,
    flatMap_f32_bytes_length, h1, h2, int32_bytes, le_bytes32_length]
  have : 4 * N * D = 4 * (N * D) := Nat.mul_assoc 4 N D
  omega

theorem generate_data_bytes (RM : Nat) (rand : Nat → Nat) (fs : FS) (path : String) (N D : Nat)
    (hw : fs.writable path = true) :
    fs_bytes (generate_data RM rand fs path N D).1 path
      = some ((generate_bytes RM rand N D).take (fs.room path)) := by
  simp [generate_data, hw, fs_bytes, fs_put]

theorem read_int32_take (l : List Nat) (k : Nat) (hk : 4 ≤ k) :
    read_int32 (l.take k) = read_int32 l := by
  obtain ⟨j, rfl⟩ : ∃ j, k = j + 4 := ⟨k - 4, by omega⟩
  rcases l with _ | ⟨a, _ | ⟨b, _ | ⟨c, _ | ⟨d, r⟩⟩⟩⟩ <;> simp [read_int32, List.take]

theorem generate_data_call_constructed (A : Allocator) (RM : Nat) (rand : Nat → Nat) (fs : FS)
    (path : String) (N D : Nat) (hwrap : N * D < SIZE_T_MOD) (hmax : N * D ≤ A.max_size)
    (halloc : A.allocate (N * D * 4) = true) :
    generate_data_call A RM rand fs path N D = some (generate_data RM rand fs path N D) := by
  simp [generate_data_call, vector_constructs, Nat.mod_eq_of_lt hwrap, hmax, halloc]

theorem dataset_product_lt (N D : Nat) (hN : N < 2 ^ 31) (hD : D < 2 ^ 31) :
    N * D < SIZE_T_MOD := by
  have h : N * D < 2 ^ 31 * 2 ^ 31 := Nat.mul_lt_mul'' hN hD
  simp only [SIZE_T_MOD]
  omega

/-- The vector of `2147483647 * 2147483647` floats exceeds `max_size()` of libstdc++:
the constructor throws and the call does not return. -/
theorem generate_data_call_length_error (RM : Nat) (rand : Nat → Nat) (fs : FS)
    (path : String) :
    generate_data_call Allocator.roomy RM rand fs path 2147483647 2147483647 = none := by
  simp [generate_data_call, vector_constructs, SIZE_T_MOD, Allocator.roomy]

/-- On a device short of room the file that is left is a prefix of the bytes handed
to the stream: its length is the room, or `8 + 4*N*D` when that is less. -/
theorem generate_data_file_length (RM : Nat) (rand : Nat → Nat) (fs : FS) (path : String)
    (N D : Nat) (hN : N < 2 ^ 31) (hD : D < 2 ^ 31) (hw : fs.writable path = true) :
    ∃ bs, fs_bytes (generate_data RM rand fs path N D).1 path = some bs ∧
      bs.length = min (fs.room path) (8 + 4 * N * D) := by
  refine ⟨_, generate_data_bytes RM rand fs path N D hw, ?_⟩
  rw [List.length_take, generate_bytes_length RM rand N D hN hD]

/-- C1 (amended): for point counts and dimensions that fit `int32_t`, `0 < N < 2^31`
and `0 < D < 2^31`, whose vector of `N*D` floats is constructed (`N*D` is at most
`max_size()` and the block of `4*N*D` bytes is supplied), and a path that can be
opened for writing and takes `8 + 4*N*D` bytes, the call `generate_data<float>(path,
N, D)` returns and leaves a file of exactly `8 + 4*N*D` bytes whose first four bytes
read back as `N` and whose next four bytes read back as `D`. -/
theorem generate_data_layout (A : Allocator) (RM : Nat) (rand : Nat → Nat) (fs : FS)
    (path : String) (N D : Nat) (_hN0 : 0 < N) (_hD0 : 0 < D) (hN : N < 2 ^ 31)
    (hD : D < 2 ^ 31) (hmax : N * D ≤ A.max_size) (halloc : A.allocate (N * D * 4) = true)
    (hw : fs.writable path = true) (hroom : 8 + 4 * N * D ≤ fs.room path) :
    generate_data_call A RM rand fs path N D = some (generate_data RM rand fs path N D) ∧
    dataset_file_ok (generate_data RM rand fs path N D).1 path N D := by
  have hlen := generate_bytes_length RM rand N D hN hD
  have hfull : (generate_bytes RM rand N D).take (fs.room path) = generate_bytes RM rand N D :=
    List.take_of_length_le (by rw [hlen]; exact hroom)
  refine ⟨generate_data_call_constructed A RM rand fs path N D (dataset_product_lt N D hN hD)
    hmax halloc, generate_bytes RM rand N D, ?_, hlen, ?_, ?_⟩
  · rw [generate_data_bytes RM rand fs path N D hw, hfull]
  · simp only [generate_bytes, int32_bytes_small N hN, List.append_assoc]
    exact read_int32_le_bytes32 N hN _
  · simp only [generate_bytes, int32_bytes_small N hN, int32_bytes_small D hD,
      List.append_assoc]
    rw [drop_le_bytes32]
    exact read_int32_le_bytes32 D hD _

theorem generate_data_layout_witness :
    generate_data_call Allocator.roomy 2147483647 (fun _ => 0) FS.blank "d.bin" 2 3
      = some (generate_data 2147483647 (fun _ => 0) FS.blank "d.bin" 2 3) ∧
    dataset_file_ok (generate_data 2147483647 (fun _ => 0) FS.blank "d.bin" 2 3).1 "d.bin" 2 3 :=
  generate_data_layout Allocator.roomy 2147483647 (fun _ => 0) FS.blank "d.bin" 2 3
    (by decide) (by decide) (by decide) (by decide) (by decide) rfl rfl (by decide)

/-- C1 (counterexample): with `N = D = 2^32`, both positive `size_t` values, memory
to spare and a writable path with room, the product `n * d` wraps to `0` and both
header casts give `0`: the call returns, the file has 8 zero bytes, not `8 + 4*N*D`
bytes, and its header does not read back as `(N, D)`.  With `N = 2^31`, `D = 1` the
call returns and the first header word reads back as `-2^31`. -/
theorem generate_data_layout_counterexample :
    0 < 2 ^ 32 ∧ FS.blank.writable "d.bin" = true ∧
    generate_data_call Allocator.roomy 2147483647 (fun _ => 0) FS.blank "d.bin" (2 ^ 32) (2 ^ 32)
      = some (generate_data 2147483647 (fun _ => 0) FS.blank "d.bin" (2 ^ 32) (2 ^ 32)) ∧
    fs_bytes (generate_data 2147483647 (fun _ => 0) FS.blank "d.bin" (2 ^ 32) (2 ^ 32)).1 "d.bin"
        = some [0, 0, 0, 0, 0, 0, 0, 0] ∧
      ¬ dataset_file_ok
        (generate_data 2147483647 (fun _ => 0) FS.blank "d.bin" (2 ^ 32) (2 ^ 32)).1 "d.bin"
        (2 ^ 32) (2 ^ 32) ∧
    generate_data_call Allocator.roomy 2147483647 (fun _ => 0) FS.blank "d.bin" (2 ^ 31) 1
      = some (generate_data 2147483647 (fun _ => 0) FS.blank "d.bin" (2 ^ 31) 1) ∧
      ¬ dataset_file_ok
        (generate_data 2147483647 (fun _ => 0) FS.blank "d.bin" (2 ^ 31) 1).1 "d.bin"
        (2 ^ 31) 1 := by
  have hb : generate_bytes 2147483647 (fun _ => 0) (2 ^ 32) (2 ^ 32)
      = [0, 0, 0, 0, 0, 0, 0, 0] := by
    simp [generate_bytes, SIZE_T_MOD, rand_vector, int32_of_size_t, int32_bytes, le_bytes32]
  have hroom : FS.blank.room "d.bin" = 2 ^ 64 := rfl
  have hfile : fs_bytes
      (generate_data 2147483647 (fun _ => 0) FS.blank "d.bin" (2 ^ 32) (2 ^ 32)).1 "d.bin"
        = some [0, 0, 0, 0, 0, 0, 0, 0] := by
    rw [generate_data_bytes _ _ _ _ _ _ rfl, hb, hroom]
    exact congrArg some (List.take_of_length_le (by norm_num))
  refine ⟨by norm_num, rfl, ?_, hfile, ?_, ?_, ?_⟩
  · simp [generate_data_call, vector_constructs, SIZE_T_MOD, Allocator.roomy]
  · rintro ⟨bs, h1, h2, -, -⟩
    rw [hfile] at h1
    cases h1
    simp at h2
  · simp [generate_data_call, vector_constructs, SIZE_T_MOD, Allocator.roomy]
  · rintro ⟨bs, h1, -, h3, -⟩
    rw [generate_data_bytes _ _ _ _ _ _ rfl] at h1
    cases h1
    rw [read_int32_take _ _ (by rw [hroom]; norm_num)] at h3
    simp [generate_bytes, int32_of_size_t, int32_bytes, le_bytes32, read_int32] at h3

/-! ## Traces of the two agents -/

theorem fs_exists_put (fs : FS) (p q : String) (x : Node) (h : fs_exists fs q = true) :
    fs_exists (fs_put fs p x) q = true := by
  unfold fs_exists fs_put at *
  by_cases hq : q = p <;> simp [hq, h]

theorem fs_exists_put_ne (fs : FS) (p q : String) (x : Node) (h : q ≠ p) :
    fs_exists (fs_put fs p x) q = fs_exists fs q := by
  simp [fs_exists, fs_put, h]

theorem make_dir_exists (dir : String) (s : State) (q : String)
    (h : fs_exists s.fs q = true) : fs_exists (make_dir dir s).fs q = true := by
  unfold make_dir
  split
  · exact h
  · exact fs_exists_put _ _ _ _ h

theorem generate_data_exists (RM : Nat) (rand : Nat → Nat) (fs : FS) (path : String)
    (n d : Nat) (q : String) (h : fs_exists fs q = true) :
    fs_exists (generate_data RM rand fs path n d).1 q = true := by
  unfold generate_data
  dsimp only
  split
  · exact fs_exists_put _ _ _ _ h
  · exact h

theorem make_dir_trace_counts (dir : String) (s : State) :
    generate_calls (make_dir dir s).trace = generate_calls s.trace ∧
    build_calls (make_dir dir s).trace = build_calls s.trace := by
  unfold make_dir generate_calls build_calls
  split <;> simp [List.countP_append, List.countP_cons, Call.is_generate, Call.is_system]

/-- C3: whatever the initial file system, a run of the producer calls
`generate_data` exactly once and invokes the build command exactly once; a second
run, started on the file system the first one left, does the same. -/
theorem producer_always_rebuilds (E E2 : Env) (fs : FS) (rand rand2 : Nat → Nat) :
    generate_calls (agent_ingest.main E fs rand).trace = 1 ∧
    build_calls (agent_ingest.main E fs rand).trace = 1 ∧
    generate_calls (agent_ingest.main E2 (agent_ingest.main E fs rand).fs rand2).trace = 1 ∧
    build_calls (agent_ingest.main E2 (agent_ingest.main E fs rand).fs rand2).trace = 1 := by
  have key : ∀ (E : Env) (fs : FS) (rand : Nat → Nat),
      generate_calls (agent_ingest.main E fs rand).trace = 1 ∧
      build_calls (agent_ingest.main E fs rand).trace = 1 := by
    intro E fs rand
    have h := make_dir_trace_counts agent_ingest.DIR { fs := fs, rand := rand, trace := [] }
    simp only [generate_calls, build_calls] at h ⊢
    simp only [agent_ingest.main, agent_ingest.before_build, call_system, call_generate,
      finish, put_cerr]
    split <;>
      simp [List.countP_append, List.countP_cons, Call.is_generate, Call.is_system, h.1, h.2]
  exact ⟨(key E fs rand).1, (key E fs rand).2, (key E2 _ rand2).1, (key E2 _ rand2).2⟩

theorem consumer_reuse_run (E : Env) (fs : FS) (rand : Nat → Nat)
    (hd : fs_exists fs agent_query.DATA_FILE = true)
    (hi : fs_exists fs agent_query.INDEX_CHECK_FILE = true) :
    generate_calls (agent_query.main E fs rand).trace = 0 ∧
    build_calls (agent_query.main E fs rand).trace = 0 ∧
    fs_exists (agent_query.main E fs rand).fs agent_query.DATA_FILE = true ∧
    fs_exists (agent_query.main E fs rand).fs agent_query.INDEX_CHECK_FILE = true := by
  have hc := make_dir_trace_counts agent_query.DIR { fs := fs, rand := rand, trace := [] }
  have hd1 := make_dir_exists agent_query.DIR { fs := fs, rand := rand, trace := [] } _ hd
  have hi1 := make_dir_exists agent_query.DIR { fs := fs, rand := rand, trace := [] } _ hi
  simp only [generate_calls, build_calls] at hc ⊢
  simp only [agent_query.main, agent_query.before_index_check, agent_query.data_check, hd1,
    if_true, agent_query.index_check, hi1, agent_query.load_and_search, agent_query.search,
    finish, put_cerr]
  split <;>
    simp [List.countP_append, List.countP_cons, Call.is_generate, Call.is_system, hc.1, hc.2,
      hd1, hi1]

/-- C2: when the consumer's data file and its sentinel file both exist, a run of
the consumer makes no call of `generate_data` and no invocation of the build
command and leaves both files in place; hence the same holds for a second run
started on the file system the first one left. -/
theorem consumer_idempotent (E E2 : Env) (fs : FS) (rand rand2 : Nat → Nat)
    (hd : fs_exists fs agent_query.DATA_FILE = true)
    (hi : fs_exists fs agent_query.INDEX_CHECK_FILE = true) :
    generate_calls (agent_query.main E fs rand).trace = 0 ∧
    build_calls (agent_query.main E fs rand).trace = 0 ∧
    fs_exists (agent_query.main E fs rand).fs agent_query.DATA_FILE = true ∧
    fs_exists (agent_query.main E fs rand).fs agent_query.INDEX_CHECK_FILE = true ∧
    generate_calls (agent_query.main E2 (agent_query.main E fs rand).fs rand2).trace = 0 ∧
    build_calls (agent_query.main E2 (agent_query.main E fs rand).fs rand2).trace = 0 := by
  obtain ⟨h1, h2, h3, h4⟩ := consumer_reuse_run E fs rand hd hi
  obtain ⟨h5, h6, -, -⟩ := consumer_reuse_run E2 _ rand2 h3 h4
  exact ⟨h1, h2, h3, h4, h5, h6⟩

theorem consumer_idempotent_witness :
    generate_calls (agent_query.main Env.quiet agent_query.ready_fs (fun _ => 0)).trace = 0 ∧
    build_calls (agent_query.main Env.quiet agent_query.ready_fs (fun _ => 0)).trace = 0 ∧
    fs_exists (agent_query.main Env.quiet agent_query.ready_fs (fun _ => 0)).fs
      agent_query.DATA_FILE = true ∧
    fs_exists (agent_query.main Env.quiet agent_query.ready_fs (fun _ => 0)).fs
      agent_query.INDEX_CHECK_FILE = true ∧
    generate_calls (agent_query.main Env.quiet
      (agent_query.main Env.quiet agent_query.ready_fs (fun _ => 0)).fs (fun _ => 1)).trace = 0 ∧
    build_calls (agent_query.main Env.quiet
      (agent_query.main Env.quiet agent_query.ready_fs (fun _ => 0)).fs (fun _ => 1)).trace = 0 :=
  consumer_idempotent Env.quiet Env.quiet agent_query.ready_fs (fun _ => 0) (fun _ => 1)
    (by decide) (by decide)

/-! ## The two namespaces -/

theorem ingest_index_path_data (s : String) :
    (agent_ingest.INDEX_PREFIX ++ s).data = "./hpdic_data/ingest_index".data ++ s.data := by
  rw [String.data_append]; rfl

theorem query_index_path_data (t : String) :
    (agent_query.INDEX_PREFIX ++ t).data = "./hpdic_data/query_index".data ++ t.data := by
  rw [String.data_append]; rfl

/-- C4: the paths of the ingest role and of the query role never coincide.  The
ingest data file and every path `ingest index prefix ++ s` differ from the query
data file and from every path `query index prefix ++ t`; in particular the two data
files, the two index prefixes and the two sentinel paths are pairwise distinct. -/
theorem namespaces_disjoint :
    agent_ingest.DATA_FILE ≠ agent_query.DATA_FILE ∧
    (∀ t : String, agent_ingest.DATA_FILE ≠ agent_query.INDEX_PREFIX ++ t) ∧
    (∀ s : String, agent_ingest.INDEX_PREFIX ++ s ≠ agent_query.DATA_FILE) ∧
    (∀ s t : String, agent_ingest.INDEX_PREFIX ++ s ≠ agent_query.INDEX_PREFIX ++ t) ∧
    agent_ingest.INDEX_PREFIX ≠ agent_query.INDEX_PREFIX ∧
    agent_ingest.INDEX_PREFIX ++ "_disk.index" ≠ agent_query.INDEX_CHECK_FILE := by
  have hpp : ∀ s t : String,
      agent_ingest.INDEX_PREFIX ++ s ≠ agent_query.INDEX_PREFIX ++ t := by
    intro s t h
    have h2 := congrArg String.data h
    rw [ingest_index_path_data, query_index_path_data] at h2
    simp at h2
  refine ⟨by decide, ?_, ?_, hpp, by decide, hpp _ _⟩
  · intro t h
    have h2 := congrArg String.data h
    rw [query_index_path_data] at h2
    have h3 : agent_ingest.DATA_FILE.data = "./hpdic_data/ingest_raw.bin".data := rfl
    rw [h3] at h2
    simp at h2
  · intro s h
    have h2 := congrArg String.data h
    rw [ingest_index_path_data] at h2
    have h3 : agent_query.DATA_FILE.data = "./hpdic_data/query_raw.bin".data := rfl
    rw [h3] at h2
    simp at h2

/-! ## Exit codes and build failure -/

theorem make_dir_trace_flags (dir : String) (s : State) (f : Call → Bool)
    (h1 : ∀ p b, f (Call.fs_exists p b) = false) (h2 : ∀ p, f (Call.create_directory p) = false) :
    (make_dir dir s).trace.filter f = s.trace.filter f := by
  unfold make_dir
  split <;> simp [List.filter_append, List.filter_cons, h1, h2]

theorem data_check_trace_flags (E : Env) (s : State) (f : Call → Bool)
    (h1 : ∀ p b, f (Call.fs_exists p b) = false)
    (h2 : ∀ p n d, f (Call.generate_data p n d) = false) :
    (agent_query.data_check E s).trace.filter f = s.trace.filter f := by
  unfold agent_query.data_check
  split <;> simp [call_generate, List.filter_append, List.filter_cons, h1, h2]

theorem before_build_flags (E : Env) (fs : FS) (rand : Nat → Nat) (f : Call → Bool)
    (h1 : ∀ p b, f (Call.fs_exists p b) = false) (h2 : ∀ p, f (Call.create_directory p) = false)
    (h3 : ∀ p n d, f (Call.generate_data p n d) = false) :
    (agent_ingest.before_build E fs rand).trace.filter f = [] := by
  simp [agent_ingest.before_build, call_generate, List.filter_append, h3,
    make_dir_trace_flags _ _ f h1 h2]

theorem before_index_check_flags (E : Env) (fs : FS) (rand : Nat → Nat) (f : Call → Bool)
    (h1 : ∀ p b, f (Call.fs_exists p b) = false) (h2 : ∀ p, f (Call.create_directory p) = false)
    (h3 : ∀ p n d, f (Call.generate_data p n d) = false) :
    (agent_query.before_index_check E fs rand).trace.filter f = [] := by
  simp [agent_query.before_index_check, data_check_trace_flags _ _ f h1 h3,
    make_dir_trace_flags _ _ f h1 h2]

theorem any_eq_filter_ne_nil (t : List Call) (f : Call → Bool) :
    t.any f = !(t.filter f).isEmpty := by
  induction t with
  | nil => rfl
  | cons x xs ih =>
    by_cases h : f x = true
    · simp [List.filter_cons, h]
    · simp only [Bool.not_eq_true] at h
      simp [List.filter_cons, h, ih]

theorem countP_eq_filter_length (t : List Call) (f : Call → Bool) :
    t.countP f = (t.filter f).length := List.countP_eq_length_filter f t

theorem ingest_main_cases (E : Env) (fs : FS) (rand : Nat → Nat) :
    ((E.system agent_ingest.cmd (agent_ingest.before_build E fs rand).fs).1 ≠ 0 ∧
      agent_ingest.main E fs rand =
        { code := 1,
          fs := (E.system agent_ingest.cmd (agent_ingest.before_build E fs rand).fs).2,
          trace := (agent_ingest.before_build E fs rand).trace ++
            [Call.system agent_ingest.cmd
              (E.system agent_ingest.cmd (agent_ingest.before_build E fs rand).fs).1,
             Call.cerr "[Agent Ingest] Error: Build failed! Check builder path.\n"] }) ∨
    ((E.system agent_ingest.cmd (agent_ingest.before_build E fs rand).fs).1 = 0 ∧
      agent_ingest.main E fs rand =
        { code := 0,
          fs := (E.system agent_ingest.cmd (agent_ingest.before_build E fs rand).fs).2,
          trace := (agent_ingest.before_build E fs rand).trace ++
            [Call.system agent_ingest.cmd 0] }) := by
  by_cases hb : (E.system agent_ingest.cmd (agent_ingest.before_build E fs rand).fs).1 = 0
  · right
    refine ⟨hb, ?_⟩
    simp [agent_ingest.main, call_system, finish, hb]
  · left
    refine ⟨hb, ?_⟩
    simp [agent_ingest.main, call_system, finish, put_cerr, hb]

theorem load_and_search_cases (E : Env) (s : State) :
    (E.load agent_query.NUM_THREADS agent_query.INDEX_PREFIX s.fs ≠ 0 ∧
      agent_query.load_and_search E s =
        { code := 1, fs := s.fs,
          trace := s.trace ++
            [Call.load agent_query.NUM_THREADS agent_query.INDEX_PREFIX
              (E.load agent_query.NUM_THREADS agent_query.INDEX_PREFIX s.fs),
             Call.cerr "Error: Load failed.\n"] }) ∨
    (E.load agent_query.NUM_THREADS agent_query.INDEX_PREFIX s.fs = 0 ∧
      agent_query.load_and_search E s =
        { code := 0, fs := s.fs,
          trace := s.trace ++
            [Call.load agent_query.NUM_THREADS agent_query.INDEX_PREFIX 0,
             Call.cached_beam_search (rand_vector E.RAND_MAX s.rand agent_query.DIM) 5 20 4] }) := by
  by_cases hl : E.load agent_query.NUM_THREADS agent_query.INDEX_PREFIX s.fs = 0
  · right
    refine ⟨hl, ?_⟩
    simp [agent_query.load_and_search, agent_query.search, finish, hl]
  · left
    refine ⟨hl, ?_⟩
    simp [agent_query.load_and_search, finish, put_cerr, hl]

theorem index_check_cases (E : Env) (s : State) :
    (fs_exists s.fs agent_query.INDEX_CHECK_FILE = true ∧
      agent_query.index_check E s = agent_query.load_and_search E
        { s with trace := s.trace ++ [Call.fs_exists agent_query.INDEX_CHECK_FILE true] }) ∨
    (fs_exists s.fs agent_query.INDEX_CHECK_FILE = false ∧
      (E.system agent_query.cmd s.fs).1 ≠ 0 ∧
      agent_query.index_check E s =
        { code := 1, fs := (E.system agent_query.cmd s.fs).2,
          trace := s.trace ++
            [Call.fs_exists agent_query.INDEX_CHECK_FILE false,
             Call.system agent_query.cmd (E.system agent_query.cmd s.fs).1,
             Call.cerr ("Error: Build failed! Check path: " ++ agent_query.BUILDER_BIN ++ "\n")] }) ∨
    (fs_exists s.fs agent_query.INDEX_CHECK_FILE = false ∧
      (E.system agent_query.cmd s.fs).1 = 0 ∧
      agent_query.index_check E s = agent_query.load_and_search E
        { fs := (E.system agent_query.cmd s.fs).2, rand := s.rand,
          trace := s.trace ++
            [Call.fs_exists agent_query.INDEX_CHECK_FILE false,
             Call.system agent_query.cmd 0] }) := by
  by_cases hs : fs_exists s.fs agent_query.INDEX_CHECK_FILE = true
  · left
    refine ⟨hs, ?_⟩
    simp [agent_query.index_check, hs]
  · simp only [Bool.not_eq_true] at hs
    right
    by_cases hb : (E.system agent_query.cmd s.fs).1 = 0
    · right
      refine ⟨hs, hb, ?_⟩
      simp [agent_query.index_check, call_system, hs, hb]
    · left
      refine ⟨hs, hb, ?_⟩
      simp [agent_query.index_check, call_system, finish, put_cerr, hs, hb]

theorem load_not_before_index_check (E : Env) (fs : FS) (rand : Nat → Nat) (n : Nat)
    (p : String) (ret : Int) :
    Call.load n p ret ∉ (agent_query.before_index_check E fs rand).trace := by
  intro hmem
  have h := before_index_check_flags E fs rand Call.is_load
    (fun _ _ => rfl) (fun _ => rfl) (fun _ _ _ => rfl)
  have h2 : Call.load n p ret ∈
      (agent_query.before_index_check E fs rand).trace.filter Call.is_load :=
    List.mem_filter.mpr ⟨hmem, rfl⟩
  rw [h] at h2
  exact List.not_mem_nil _ h2

theorem load_status_recorded (E : Env) (fs : FS) (rand : Nat → Nat) (n : Nat) (p : String)
    (ret : Int) (hmem : Call.load n p ret ∈ (agent_query.main E fs rand).trace) :
    n = agent_query.NUM_THREADS ∧ p = agent_query.INDEX_PREFIX ∧
      ret = E.load agent_query.NUM_THREADS agent_query.INDEX_PREFIX
        (agent_query.main E fs rand).fs := by
  have hno := load_not_before_index_check E fs rand n p ret
  unfold agent_query.main at hmem ⊢
  rcases index_check_cases E (agent_query.before_index_check E fs rand) with
    ⟨-, heq⟩ | ⟨-, -, heq⟩ | ⟨-, h0, heq⟩
  · rw [heq] at hmem ⊢
    rcases load_and_search_cases E
      { agent_query.before_index_check E fs rand with
        trace := (agent_query.before_index_check E fs rand).trace ++
          [Call.fs_exists agent_query.INDEX_CHECK_FILE true] } with ⟨-, hl⟩ | ⟨hz, hl⟩
    · rw [hl] at hmem ⊢
      simp [hno] at hmem
      simpa using hmem
    · rw [hl] at hmem ⊢
      simp [hno] at hmem
      simpa [hz] using hmem
  · rw [heq] at hmem
    simp [hno] at hmem
  · rw [heq] at hmem ⊢
    rcases load_and_search_cases E
      { fs := (E.system agent_query.cmd (agent_query.before_index_check E fs rand).fs).2,
        rand := (agent_query.before_index_check E fs rand).rand,
        trace := (agent_query.before_index_check E fs rand).trace ++
          [Call.fs_exists agent_query.INDEX_CHECK_FILE false,
           Call.system agent_query.cmd 0] } with ⟨-, hl⟩ | ⟨hz, hl⟩
    · rw [hl] at hmem ⊢
      simp [hno] at hmem
      simpa using hmem
    · rw [hl] at hmem ⊢
      simp [hno] at hmem
      simpa [hz] using hmem

/-- C8: a producer run returns 1 when the build command returned a nonzero status
and 0 otherwise; a consumer run returns 1 when a build it attempted returned a
nonzero status or when `load` returned a nonzero status, and 0 otherwise, also when
the build was skipped because the sentinel exists.  The statuses are the ones the
environment returned: the producer's only `system` call carries the status of its
command, the consumer's `system` calls are that call or none, and a `load` call of
the consumer carries the status of `load` on the index prefix. -/
theorem exit_codes (E : Env) (fs : FS) (rand : Nat → Nat) :
    ((agent_ingest.main E fs rand).code =
        if (agent_ingest.main E fs rand).trace.any Call.is_failed_build then 1 else 0) ∧
    ((agent_ingest.main E fs rand).trace.filter Call.is_system =
        [Call.system agent_ingest.cmd
          (E.system agent_ingest.cmd (agent_ingest.before_build E fs rand).fs).1]) ∧
    ((agent_query.main E fs rand).code =
        if ((agent_query.main E fs rand).trace.any Call.is_failed_build
            || (agent_query.main E fs rand).trace.any Call.is_failed_load) then 1 else 0) ∧
    ((agent_query.main E fs rand).trace.filter Call.is_system =
        if fs_exists (agent_query.before_index_check E fs rand).fs agent_query.INDEX_CHECK_FILE
        then []
        else [Call.system agent_query.cmd
          (E.system agent_query.cmd (agent_query.before_index_check E fs rand).fs).1]) ∧
    (∀ n p ret, Call.load n p ret ∈ (agent_query.main E fs rand).trace →
      n = agent_query.NUM_THREADS ∧ p = agent_query.INDEX_PREFIX ∧
        ret = E.load agent_query.NUM_THREADS agent_query.INDEX_PREFIX
          (agent_query.main E fs rand).fs) := by
  have hb1 := before_build_flags E fs rand Call.is_failed_build
    (fun _ _ => rfl) (fun _ => rfl) (fun _ _ _ => rfl)
  have hb2 := before_build_flags E fs rand Call.is_system
    (fun _ _ => rfl) (fun _ => rfl) (fun _ _ _ => rfl)
  have hq1 := before_index_check_flags E fs rand Call.is_failed_build
    (fun _ _ => rfl) (fun _ => rfl) (fun _ _ _ => rfl)
  have hq2 := before_index_check_flags E fs rand Call.is_failed_load
    (fun _ _ => rfl) (fun _ => rfl) (fun _ _ _ => rfl)
  have hq3 := before_index_check_flags E fs rand Call.is_system
    (fun _ _ => rfl) (fun _ => rfl) (fun _ _ _ => rfl)
  refine ⟨?_, ?_, ?_, ?_, fun n p ret h => load_status_recorded E fs rand n p ret h⟩
  · simp only [any_eq_filter_ne_nil, agent_ingest.main, call_system, finish, put_cerr]
    split <;> rename_i h <;>
      simp [List.filter_append, List.filter_cons, hb1, Call.is_failed_build, h]
  · simp only [agent_ingest.main, call_system, finish, put_cerr]
    split <;> simp [List.filter_append, List.filter_cons, hb2, Call.is_system]
  · simp only [any_eq_filter_ne_nil, agent_query.main, agent_query.index_check,
      agent_query.load_and_search, agent_query.search, call_system, finish, put_cerr]
    split_ifs <;>
      simp_all [List.filter_append, List.filter_cons, Call.is_failed_build, Call.is_failed_load]
  · simp only [agent_query.main, agent_query.index_check,
      agent_query.load_and_search, agent_query.search, call_system, finish, put_cerr]
    split_ifs <;>
      simp_all [List.filter_append, List.filter_cons, Call.is_system]

theorem before_build_keeps (E : Env) (fs : FS) (rand : Nat → Nat) (p : String)
    (h : fs_exists fs p = true) : fs_exists (agent_ingest.before_build E fs rand).fs p = true := by
  unfold agent_ingest.before_build call_generate
  exact generate_data_exists _ _ _ _ _ _ _ (make_dir_exists _ _ _ h)

theorem before_index_check_keeps (E : Env) (fs : FS) (rand : Nat → Nat) (p : String)
    (h : fs_exists fs p = true) :
    fs_exists (agent_query.before_index_check E fs rand).fs p = true := by
  have h1 := make_dir_exists agent_query.DIR { fs := fs, rand := rand, trace := [] } p h
  unfold agent_query.before_index_check agent_query.data_check
  split
  · exact h1
  · exact generate_data_exists _ _ _ _ _ _ _ h1

/-- C9: in either agent, when the build command returns a nonzero status the
command was invoked exactly once in that run, neither `load` nor
`cached_beam_search` is called, and the run exits with code 1.  The agent deletes
nothing: every path present at the start is still present when the command is
invoked, and the file system at exit is the one the command left. -/
theorem build_failure_aborts (a : Agent) (E : Env) (fs : FS) (rand : Nat → Nat)
    (h : (a.run E fs rand).trace.any Call.is_failed_build = true) :
    build_calls (a.run E fs rand).trace = 1 ∧
    load_calls (a.run E fs rand).trace = 0 ∧
    search_calls (a.run E fs rand).trace = 0 ∧
    (a.run E fs rand).code = 1 ∧
    (a.run E fs rand).fs = (E.system a.cmd (a.fs_at_build E fs rand)).2 ∧
    (∀ p, fs_exists fs p = true → fs_exists (a.fs_at_build E fs rand) p = true) := by
  cases a with
  | producer =>
    have hb1 := before_build_flags E fs rand Call.is_failed_build
      (fun _ _ => rfl) (fun _ => rfl) (fun _ _ _ => rfl)
    have hb2 := before_build_flags E fs rand Call.is_system
      (fun _ _ => rfl) (fun _ => rfl) (fun _ _ _ => rfl)
    have hb3 := before_build_flags E fs rand Call.is_load
      (fun _ _ => rfl) (fun _ => rfl) (fun _ _ _ => rfl)
    have hb4 := before_build_flags E fs rand Call.is_search
      (fun _ _ => rfl) (fun _ => rfl) (fun _ _ _ => rfl)
    simp only [Agent.run, Agent.fs_at_build, Agent.cmd, build_calls, load_calls, search_calls,
      countP_eq_filter_length, any_eq_filter_ne_nil] at h ⊢
    refine ⟨?_, ?_, ?_, ?_, ?_, fun p hp => before_build_keeps E fs rand p hp⟩
    all_goals
      rcases ingest_main_cases E fs rand with ⟨hne, heq⟩ | ⟨h0, heq⟩
      · simp [heq, List.filter_append, List.filter_cons, hb2, hb3, hb4, Call.is_system,
          Call.is_load, Call.is_search]
      · rw [heq] at h
        simp [List.filter_append, List.filter_cons, hb1, Call.is_failed_build] at h
  | consumer =>
    have hq1 := before_index_check_flags E fs rand Call.is_failed_build
      (fun _ _ => rfl) (fun _ => rfl) (fun _ _ _ => rfl)
    have hq2 := before_index_check_flags E fs rand Call.is_system
      (fun _ _ => rfl) (fun _ => rfl) (fun _ _ _ => rfl)
    have hq3 := before_index_check_flags E fs rand Call.is_load
      (fun _ _ => rfl) (fun _ => rfl) (fun _ _ _ => rfl)
    have hq4 := before_index_check_flags E fs rand Call.is_search
      (fun _ _ => rfl) (fun _ => rfl) (fun _ _ _ => rfl)
    simp only [Agent.run, Agent.fs_at_build, Agent.cmd, build_calls, load_calls, search_calls,
      countP_eq_filter_length, any_eq_filter_ne_nil, agent_query.main] at h ⊢
    refine ⟨?_, ?_, ?_, ?_, ?_, fun p hp => before_index_check_keeps E fs rand p hp⟩
    all_goals
      rcases index_check_cases E (agent_query.before_index_check E fs rand) with
        ⟨-, heq⟩ | ⟨-, hne, heq⟩ | ⟨-, h0, heq⟩
      · rw [heq] at h
        rcases load_and_search_cases E _ with ⟨-, hl⟩ | ⟨-, hl⟩ <;>
        · rw [hl] at h
          simp [List.filter_append, List.filter_cons, hq1, Call.is_failed_build] at h
      · simp [heq, List.filter_append, List.filter_cons, hq2, hq3, hq4, Call.is_system,
          Call.is_load, Call.is_search]
      · rw [heq] at h
        rcases load_and_search_cases E _ with ⟨-, hl⟩ | ⟨-, hl⟩ <;>
        · rw [hl] at h
          simp [List.filter_append, List.filter_cons, hq1, Call.is_failed_build] at h

theorem build_failure_aborts_witness :
    (Agent.consumer.run Env.broken FS.blank (fun _ => 0)).trace.any Call.is_failed_build = true ∧
    build_calls (Agent.consumer.run Env.broken FS.blank (fun _ => 0)).trace = 1 ∧
    load_calls (Agent.consumer.run Env.broken FS.blank (fun _ => 0)).trace = 0 ∧
    search_calls (Agent.consumer.run Env.broken FS.blank (fun _ => 0)).trace = 0 ∧
    (Agent.consumer.run Env.broken FS.blank (fun _ => 0)).code = 1 :=
  have h : (Agent.consumer.run Env.broken FS.blank (fun _ => 0)).trace.any
      Call.is_failed_build = true := by decide
  have t := build_failure_aborts Agent.consumer Env.broken FS.blank (fun _ => 0) h
  ⟨h, t.1, t.2.1, t.2.2.1, t.2.2.2.1⟩

/-! ## Search without a dimension check -/

theorem consumer_loaded_run (E : Env) (fs : FS) (rand : Nat → Nat)
    (h : (agent_query.main E fs rand).trace.any Call.is_loaded = true) :
    search_calls (agent_query.main E fs rand).trace = 1 ∧
    ((agent_query.main E fs rand).trace.filter Call.is_search).map Call.query_length
      = [some 128] ∧
    (agent_query.main E fs rand).code = 0 ∧
    (agent_query.main E fs rand).trace.any Call.is_cerr = false := by
  have hq1 := before_index_check_flags E fs rand Call.is_loaded
    (fun _ _ => rfl) (fun _ => rfl) (fun _ _ _ => rfl)
  have hq2 := before_index_check_flags E fs rand Call.is_search
    (fun _ _ => rfl) (fun _ => rfl) (fun _ _ _ => rfl)
  have hq3 := before_index_check_flags E fs rand Call.is_cerr
    (fun _ _ => rfl) (fun _ => rfl) (fun _ _ _ => rfl)
  simp only [search_calls, countP_eq_filter_length, any_eq_filter_ne_nil,
    agent_query.main] at h ⊢
  rcases index_check_cases E (agent_query.before_index_check E fs rand) with
    ⟨-, heq⟩ | ⟨-, hne, heq⟩ | ⟨-, h0, heq⟩
  · rcases load_and_search_cases E
      { agent_query.before_index_check E fs rand with
        trace := (agent_query.before_index_check E fs rand).trace ++
          [Call.fs_exists agent_query.INDEX_CHECK_FILE true] } with ⟨hl, hl2⟩ | ⟨hl, hl2⟩
    · rw [heq, hl2] at h
      simp [List.filter_append, List.filter_cons, hq1, Call.is_loaded, hl] at h
    · simp [heq, hl2, List.filter_append, List.filter_cons, hq2, hq3, Call.is_search,
        Call.is_cerr, Call.query_length, rand_vector_length, agent_query.DIM]
  · rw [heq] at h
    simp [List.filter_append, List.filter_cons, hq1, Call.is_loaded] at h
  · rcases load_and_search_cases E
      { fs := (E.system agent_query.cmd (agent_query.before_index_check E fs rand).fs).2,
        rand := (agent_query.before_index_check E fs rand).rand,
        trace := (agent_query.before_index_check E fs rand).trace ++
          [Call.fs_exists agent_query.INDEX_CHECK_FILE false,
           Call.system agent_query.cmd 0] } with ⟨hl, hl2⟩ | ⟨hl, hl2⟩
    · rw [heq, hl2] at h
      simp [List.filter_append, List.filter_cons, hq1, Call.is_loaded, hl] at h
    · simp [heq, hl2, List.filter_append, List.filter_cons, hq2, hq3, Call.is_search,
        Call.is_cerr, Call.query_length, rand_vector_length, agent_query.DIM]

/-- C5 (amended): the consumer makes no dimension check.  Whenever `load` returns 0,
whatever dimension the loaded index has, `cached_beam_search` is invoked exactly
once, with a query vector of length `DIM = 128`, the run exits with code 0 and
nothing is written to `std::cerr`. -/
theorem search_without_dimension_check (E : Env) (fs : FS) (rand : Nat → Nat)
    (h : (agent_query.main E fs rand).trace.any Call.is_loaded = true) :
    search_calls (agent_query.main E fs rand).trace = 1 ∧
    ((agent_query.main E fs rand).trace.filter Call.is_search).map Call.query_length
      = [some 128] ∧
    (agent_query.main E fs rand).code = 0 ∧
    (agent_query.main E fs rand).trace.any Call.is_cerr = false :=
  consumer_loaded_run E fs rand h

theorem search_without_dimension_check_witness :
    (agent_query.main Env.dim64 agent_query.ready_fs (fun _ => 0)).trace.any
      Call.is_loaded = true ∧
    search_calls (agent_query.main Env.dim64 agent_query.ready_fs (fun _ => 0)).trace = 1 ∧
    (agent_query.main Env.dim64 agent_query.ready_fs (fun _ => 0)).code = 0 :=
  have h : (agent_query.main Env.dim64 agent_query.ready_fs (fun _ => 0)).trace.any
      Call.is_loaded = true := by decide
  have t := search_without_dimension_check Env.dim64 agent_query.ready_fs (fun _ => 0) h
  ⟨h, t.1, t.2.2.1⟩

/-- C5 (counterexample): the index under the consumer's prefix has dimension 64, the
query vector has length 128, and `load` returns 0; the run nevertheless calls
`cached_beam_search` with that query, writes nothing to `std::cerr` and exits with
code 0, so no dimension mismatch is reported. -/
theorem search_dimension_mismatch_counterexample :
    Env.dim64.data_dim agent_query.INDEX_PREFIX agent_query.ready_fs = 64 ∧
    (agent_query.main Env.dim64 agent_query.ready_fs (fun _ => 0)).trace.any
      Call.is_loaded = true ∧
    ((agent_query.main Env.dim64 agent_query.ready_fs (fun _ => 0)).trace.filter
      Call.is_search).map Call.query_length = [some 128] ∧
    (agent_query.main Env.dim64 agent_query.ready_fs (fun _ => 0)).trace.any
      Call.is_cerr = false ∧
    (agent_query.main Env.dim64 agent_query.ready_fs (fun _ => 0)).code = 0 := by
  have h : (agent_query.main Env.dim64 agent_query.ready_fs (fun _ => 0)).trace.any
      Call.is_loaded = true := by decide
  have t := consumer_loaded_run Env.dim64 agent_query.ready_fs (fun _ => 0) h
  exact ⟨rfl, h, t.2.1, t.2.2.2, t.2.2.1⟩

/-! ## Generation on a path that cannot be opened -/

theorem floor_le_round_even (x : ℚ) : ⌊x⌋ ≤ round_even x := by
  unfold round_even
  dsimp only
  split_ifs <;> omega

theorem round_even_le_floor_succ (x : ℚ) : round_even x ≤ ⌊x⌋ + 1 := by
  unfold round_even
  dsimp only
  split_ifs <;> omega

theorem round_even_le_of_le (x : ℚ) (n : ℤ) (h : x ≤ n) : round_even x ≤ n := by
  have hf : ⌊x⌋ ≤ n := by
    have := Int.floor_le x
    exact_mod_cast (this.trans h)
  by_cases hx : x - ⌊x⌋ < 1 / 2
  · simp only [round_even, if_pos hx]; exact hf
  · have hlt : (⌊x⌋ : ℚ) < n := by
      have : (0 : ℚ) < x - ⌊x⌋ := by linarith
      linarith
    have hlt2 : ⌊x⌋ < n := by exact_mod_cast hlt
    have := round_even_le_floor_succ x
    omega

theorem le_round_even_of_le (x : ℚ) (n : ℤ) (h : (n : ℚ) ≤ x) : n ≤ round_even x :=
  (Int.le_floor.mpr h).trans (floor_le_round_even x)

theorem round_even_intCast (n : ℤ) : round_even (n : ℚ) = n :=
  le_antisymm (round_even_le_of_le _ n le_rfl) (le_round_even_of_le _ n le_rfl)

theorem round_even_mono {x y : ℚ} (h : x ≤ y) : round_even x ≤ round_even y := by
  have hfl : ⌊x⌋ ≤ ⌊y⌋ := Int.floor_mono h
  rcases hfl.lt_or_eq with hlt | heq
  · have h1 := round_even_le_floor_succ x
    have h2 := floor_le_round_even y
    omega
  · have hq : (⌊x⌋ : ℚ) = (⌊y⌋ : ℚ) := by exact_mod_cast heq
    unfold round_even
    dsimp only
    rw [← heq]
    split_ifs <;> first | omega | (exfalso; linarith)

theorem two_zpow_pos (u : ℤ) : (0 : ℚ) < (2 : ℚ) ^ u := zpow_pos (by norm_num) u

theorem two_zpow_div (k u : ℤ) (h : u ≤ k) :
    ((2 : ℚ) ^ k) / (2 : ℚ) ^ u = (((2 : ℤ) ^ (k - u).toNat : ℤ) : ℚ) := by
  obtain ⟨n, hn⟩ : ∃ n : ℕ, k - u = n := Int.eq_ofNat_of_zero_le (by omega)
  rw [← zpow_sub₀ (by norm_num : (2 : ℚ) ≠ 0), hn]
  simp [zpow_natCast]

theorem f32_round_nonneg {q : ℚ} (h : 0 ≤ q) : 0 ≤ f32_round q := by
  unfold f32_round
  split_ifs with h0
  · exact le_rfl
  · have hx : ((0 : ℤ) : ℚ) ≤ q / (2 : ℚ) ^ f32_ulp_exp q := by
      simpa using div_nonneg h (two_zpow_pos _).le
    have := le_round_even_of_le _ 0 hx
    have h2 : (0 : ℚ) ≤ (round_even (q / (2 : ℚ) ^ f32_ulp_exp q) : ℚ) := by exact_mod_cast this
    exact mul_nonneg h2 (two_zpow_pos _).le

/-- Rounding never crosses a power of two that is a multiple of the unit in the last place. -/
theorem f32_round_le_zpow {q : ℚ} (k : ℤ) (hk : f32_ulp_exp q ≤ k) (h : q ≤ (2 : ℚ) ^ k) :
    f32_round q ≤ (2 : ℚ) ^ k := by
  unfold f32_round
  split_ifs with h0
  · exact (two_zpow_pos k).le
  · set u := f32_ulp_exp q with hu
    have hn := two_zpow_div k u hk
    have hx : q / (2 : ℚ) ^ u ≤ (((2 : ℤ) ^ (k - u).toNat : ℤ) : ℚ) := by
      rw [← hn]
      exact div_le_div_of_nonneg_right h (two_zpow_pos u).le
    have hr := round_even_le_of_le _ _ hx
    have hr2 : (round_even (q / (2 : ℚ) ^ u) : ℚ) ≤ ((2 : ℚ) ^ k) / (2 : ℚ) ^ u := by
      rw [hn]; exact_mod_cast hr
    calc (round_even (q / (2 : ℚ) ^ u) : ℚ) * (2 : ℚ) ^ u
        ≤ ((2 : ℚ) ^ k) / (2 : ℚ) ^ u * (2 : ℚ) ^ u :=
          mul_le_mul_of_nonneg_right hr2 (two_zpow_pos u).le
      _ = (2 : ℚ) ^ k := div_mul_cancel₀ _ (two_zpow_pos u).ne'

theorem zpow_le_f32_round {q : ℚ} (k : ℤ) (hk : f32_ulp_exp q ≤ k) (h : (2 : ℚ) ^ k ≤ q) :
    (2 : ℚ) ^ k ≤ f32_round q := by
  have hq : 0 < q := (two_zpow_pos k).trans_le h
  unfold f32_round
  rw [if_neg hq.ne']
  set u := f32_ulp_exp q with hu
  have hn := two_zpow_div k u hk
  have hx : (((2 : ℤ) ^ (k - u).toNat : ℤ) : ℚ) ≤ q / (2 : ℚ) ^ u := by
    rw [← hn]
    exact div_le_div_of_nonneg_right h (two_zpow_pos u).le
  have hr := le_round_even_of_le _ _ hx
  have hr2 : ((2 : ℚ) ^ k) / (2 : ℚ) ^ u ≤ (round_even (q / (2 : ℚ) ^ u) : ℚ) := by
    rw [hn]; exact_mod_cast hr
  calc (2 : ℚ) ^ k = ((2 : ℚ) ^ k) / (2 : ℚ) ^ u * (2 : ℚ) ^ u :=
        (div_mul_cancel₀ _ (two_zpow_pos u).ne').symm
    _ ≤ (round_even (q / (2 : ℚ) ^ u) : ℚ) * (2 : ℚ) ^ u :=
        mul_le_mul_of_nonneg_right hr2 (two_zpow_pos u).le

theorem f32_ulp_exp_le_log (q : ℚ) (h : -126 ≤ Int.log 2 q) : f32_ulp_exp q ≤ Int.log 2 q := by
  unfold f32_ulp_exp
  omega

theorem f32_ulp_exp_nonpos {q : ℚ} (h : q ≤ 1) : f32_ulp_exp q ≤ 0 := by
  have : Int.log 2 q ≤ 0 := by
    rw [Int.log_of_right_le_one 2 h]
    omega
  unfold f32_ulp_exp
  omega

theorem f32_round_le_one {q : ℚ} (h : q ≤ 1) : f32_round q ≤ 1 := by
  have := f32_round_le_zpow (q := q) 0 (f32_ulp_exp_nonpos h) (by simpa using h)
  simpa using this

theorem f32_round_one : f32_round 1 = 1 := by
  refine le_antisymm (f32_round_le_one le_rfl) ?_
  have := zpow_le_f32_round (q := 1) 0 (f32_ulp_exp_nonpos le_rfl) (by simp)
  simpa using this

theorem f32_round_mono {q1 q2 : ℚ} (h0 : 0 ≤ q1) (h : q1 ≤ q2) :
    f32_round q1 ≤ f32_round q2 := by
  rcases h0.eq_or_lt with hz | hpos
  · rw [← hz]
    simpa [f32_round] using f32_round_nonneg (h0.trans h)
  have hpos2 : 0 < q2 := hpos.trans_le h
  have he : Int.log 2 q1 ≤ Int.log 2 q2 := Int.log_mono_right hpos h
  have hu : f32_ulp_exp q1 ≤ f32_ulp_exp q2 := by
    unfold f32_ulp_exp
    omega
  rcases hu.lt_or_eq with hlt | heq
  · have hu2 : f32_ulp_exp q2 = Int.log 2 q2 - 23 := by
      unfold f32_ulp_exp at hlt ⊢
      omega
    have he1 : Int.log 2 q1 + 1 ≤ Int.log 2 q2 := by
      unfold f32_ulp_exp at hlt
      omega
    have hq1 : q1 ≤ (2 : ℚ) ^ Int.log 2 q2 := by
      have h1 : q1 < (2 : ℚ) ^ (Int.log 2 q1 + 1) := by
        simpa using Int.lt_zpow_succ_log_self (R := ℚ) (b := 2) (by norm_num) q1
      have h2 : (2 : ℚ) ^ (Int.log 2 q1 + 1) ≤ (2 : ℚ) ^ Int.log 2 q2 :=
        zpow_le_zpow_right₀ (by norm_num) he1
      exact (h1.trans_le h2).le
    have hq2 : (2 : ℚ) ^ Int.log 2 q2 ≤ q2 := by
      simpa using Int.zpow_log_le_self (R := ℚ) (b := 2) (by norm_num) hpos2
    have hk1 : f32_ulp_exp q1 ≤ Int.log 2 q2 := by omega
    have hk2 : f32_ulp_exp q2 ≤ Int.log 2 q2 := by omega
    exact (f32_round_le_zpow _ hk1 hq1).trans (zpow_le_f32_round _ hk2 hq2)
  · unfold f32_round
    rw [if_neg hpos.ne', if_neg hpos2.ne', heq]
    have hx : q1 / (2 : ℚ) ^ f32_ulp_exp q2 ≤ q2 / (2 : ℚ) ^ f32_ulp_exp q2 :=
      div_le_div_of_nonneg_right h (two_zpow_pos _).le
    have hr : (round_even (q1 / (2 : ℚ) ^ f32_ulp_exp q2) : ℚ)
        ≤ (round_even (q2 / (2 : ℚ) ^ f32_ulp_exp q2) : ℚ) := by
      exact_mod_cast round_even_mono hx
    exact mul_le_mul_of_nonneg_right hr (two_zpow_pos _).le

theorem f32_of_int_pos {M : Nat} (h : 0 < M) : 0 < f32_of_int M := by
  have h1 : (1 : ℚ) ≤ (M : ℚ) := by exact_mod_cast h
  have := f32_round_mono (by norm_num) h1
  rw [f32_round_one] at this
  unfold f32_of_int
  linarith

theorem rand_element_bounds (RM r : Nat) (hRM : 0 < RM) (hr : r ≤ RM) :
    0 ≤ rand_element RM r ∧ rand_element RM r ≤ 1 := by
  have ha : 0 ≤ f32_of_int r := f32_round_nonneg (by positivity)
  have hb : 0 < f32_of_int RM := f32_of_int_pos hRM
  have hab : f32_of_int r ≤ f32_of_int RM :=
    f32_round_mono (by positivity) (by exact_mod_cast hr)
  unfold rand_element f32_div
  exact ⟨f32_round_nonneg (div_nonneg ha hb.le), f32_round_le_one ((div_le_one hb).mpr hab)⟩

theorem rand_element_top (RM : Nat) (hRM : 0 < RM) : rand_element RM RM = 1 := by
  unfold rand_element f32_div
  rw [div_self (f32_of_int_pos hRM).ne', f32_round_one]


/-- C7 (amended): every value written by `generate_data` lies in the closed interval
`[0,1]`: for `RAND_MAX > 0` and every value `r` with `0 <= r <= RAND_MAX` that
`rand()` can return, the element `(float)r / RAND_MAX` satisfies `0 <= x` and
`x <= 1`, so every entry of a generated vector does; the bound 1 is reached at
`r = RAND_MAX`. -/
theorem generated_values_in_closed_unit_interval (RM : Nat) (hRM : 0 < RM) :
    (∀ r, r ≤ RM → 0 ≤ rand_element RM r ∧ rand_element RM r ≤ 1) ∧
    (∀ (rand : Nat → Nat) (len : Nat), (∀ i, rand i ≤ RM) →
      ∀ x ∈ rand_vector RM rand len, 0 ≤ x ∧ x ≤ 1) ∧
    rand_element RM RM = 1 := by
  refine ⟨fun r hr => rand_element_bounds RM r hRM hr, ?_, rand_element_top RM hRM⟩
  intro rand len hrand x hx
  simp only [rand_vector, List.mem_map, List.mem_range] at hx
  obtain ⟨i, -, rfl⟩ := hx
  exact rand_element_bounds RM (rand i) hRM (hrand i)

theorem generated_values_in_closed_unit_interval_witness :
    (∀ r, r ≤ 2147483647 →
      0 ≤ rand_element 2147483647 r ∧ rand_element 2147483647 r ≤ 1) ∧
    rand_element 2147483647 2147483647 = 1 :=
  ⟨(generated_values_in_closed_unit_interval 2147483647 (by decide)).1,
   (generated_values_in_closed_unit_interval 2147483647 (by decide)).2.2⟩

/-- C7 (counterexample): with glibc's `RAND_MAX = 2147483647` and `rand()` returning
`RAND_MAX`, the element `(float)r / RAND_MAX` is exactly 1, which is not below 1. -/
theorem generated_value_one_counterexample :
    (2147483647 : Nat) ≤ 2147483647 ∧
    rand_element 2147483647 2147483647 = 1 ∧
    ¬ rand_element 2147483647 2147483647 < 1 := by
  have h := rand_element_top 2147483647 (by decide)
  exact ⟨le_rfl, h, by rw [h]; exact lt_irrefl 1⟩

/-! ## Interleaved consumers -/

theorem run_alone_exited (E : Env) (k : Nat) (c : Int) (r : Nat → Nat) (t : List Call)
    (fs : FS) :
    agent_query.run_alone E k ({ pc := agent_query.Pc.exited c, rand := r, trace := t }, fs)
      = ({ pc := agent_query.Pc.exited c, rand := r, trace := t }, fs) := by
  induction k generalizing c r t fs with
  | zero => rfl
  | succ k ih => simp only [agent_query.run_alone, agent_query.step]; exact ih c r t fs

theorem run_alone_from_load (E : Env) (rand : Nat → Nat) (t : List Call) (fs : FS) (k : Nat) :
    agent_query.ends_as
      (agent_query.run_alone E (k + 2)
        ({ pc := agent_query.Pc.load, rand := rand, trace := t }, fs))
      (agent_query.load_and_search E { fs := fs, rand := rand, trace := t }) := by
  have hex := run_alone_exited E
  unfold agent_query.ends_as
  by_cases hl : E.load agent_query.NUM_THREADS agent_query.INDEX_PREFIX fs = 0
  · simp [agent_query.run_alone, agent_query.step, agent_query.load_and_search,
      agent_query.search, finish, hl, hex]
  · simp [agent_query.run_alone, agent_query.step, agent_query.load_and_search,
      finish, put_cerr, hl, hex]

theorem run_alone_from_index_check (E : Env) (rand : Nat → Nat) (t : List Call) (fs : FS)
    (k : Nat) :
    agent_query.ends_as
      (agent_query.run_alone E (k + 4)
        ({ pc := agent_query.Pc.index_check, rand := rand, trace := t }, fs))
      (agent_query.index_check E { fs := fs, rand := rand, trace := t }) := by
  by_cases hs : fs_exists fs agent_query.INDEX_CHECK_FILE = true
  · have h := run_alone_from_load E rand
      (t ++ [Call.fs_exists agent_query.INDEX_CHECK_FILE true]) fs (k + 1)
    simpa [agent_query.run_alone, agent_query.step, agent_query.index_check, hs] using h
  · simp only [Bool.not_eq_true] at hs
    by_cases hb : (E.system agent_query.cmd fs).1 = 0
    · have h := run_alone_from_load E rand
        (t ++ [Call.fs_exists agent_query.INDEX_CHECK_FILE false,
          Call.system agent_query.cmd 0]) (E.system agent_query.cmd fs).2 k
      simpa [agent_query.run_alone, agent_query.step, agent_query.index_check, call_system,
        hs, hb] using h
    · simp [agent_query.ends_as, agent_query.run_alone, agent_query.step,
        agent_query.index_check, call_system, finish, put_cerr, hs, hb, run_alone_exited]

/-- The stepwise consumer, run alone for seven steps, ends as `main` does: same exit
code, same calls, same file system. -/
theorem run_alone_ends_as_main (E : Env) (fs : FS) (rand : Nat → Nat) :
    agent_query.ends_as (agent_query.run_alone E 7 (agent_query.Proc.init rand, fs))
      (agent_query.main E fs rand) := by
  have hr : (make_dir agent_query.DIR { fs := fs, rand := rand, trace := [] }).rand = rand := by
    unfold make_dir
    split <;> rfl
  by_cases hd : fs_exists (make_dir agent_query.DIR { fs := fs, rand := rand, trace := [] }).fs
      agent_query.DATA_FILE = true
  · have h := run_alone_from_index_check E rand
      ((make_dir agent_query.DIR { fs := fs, rand := rand, trace := [] }).trace ++
        [Call.fs_exists agent_query.DATA_FILE true])
      (make_dir agent_query.DIR { fs := fs, rand := rand, trace := [] }).fs 1
    simpa [agent_query.run_alone, agent_query.step, agent_query.Proc.init, agent_query.main,
      agent_query.before_index_check, agent_query.data_check, hd, hr] using h
  · simp only [Bool.not_eq_true] at hd
    have h := run_alone_from_index_check E
      (call_generate E agent_query.DATA_FILE agent_query.NUM_POINTS agent_query.DIM
        { fs := (make_dir agent_query.DIR { fs := fs, rand := rand, trace := [] }).fs,
          rand := rand,
          trace := (make_dir agent_query.DIR { fs := fs, rand := rand, trace := [] }).trace ++
            [Call.fs_exists agent_query.DATA_FILE false] }).rand
      (call_generate E agent_query.DATA_FILE agent_query.NUM_POINTS agent_query.DIM
        { fs := (make_dir agent_query.DIR { fs := fs, rand := rand, trace := [] }).fs,
          rand := rand,
          trace := (make_dir agent_query.DIR { fs := fs, rand := rand, trace := [] }).trace ++
            [Call.fs_exists agent_query.DATA_FILE false] }).trace
      (call_generate E agent_query.DATA_FILE agent_query.NUM_POINTS agent_query.DIM
        { fs := (make_dir agent_query.DIR { fs := fs, rand := rand, trace := [] }).fs,
          rand := rand,
          trace := (make_dir agent_query.DIR { fs := fs, rand := rand, trace := [] }).trace ++
            [Call.fs_exists agent_query.DATA_FILE false] }).fs 0
    simpa [agent_query.run_alone, agent_query.step, agent_query.Proc.init, agent_query.main,
      agent_query.before_index_check, agent_query.data_check, hd, hr] using h

theorem make_dir_exists_ne (dir : String) (s : State) (q : String) (h : q ≠ dir) :
    fs_exists (make_dir dir s).fs q = fs_exists s.fs q := by
  unfold make_dir
  split
  · rfl
  · exact fs_exists_put_ne _ _ _ _ h

theorem make_dir_exists_self (dir : String) (s : State) :
    fs_exists (make_dir dir s).fs dir = true := by
  unfold make_dir
  split
  · assumption
  · simp [fs_exists, fs_put]

theorem generate_data_exists_ne (RM : Nat) (rand : Nat → Nat) (fs : FS) (path : String)
    (n d : Nat) (q : String) (h : q ≠ path) :
    fs_exists (generate_data RM rand fs path n d).1 q = fs_exists fs q := by
  unfold generate_data
  dsimp only
  split
  · exact fs_exists_put_ne _ _ _ _ h
  · rfl

theorem make_dir_rand (dir : String) (s : State) : (make_dir dir s).rand = s.rand := by
  unfold make_dir
  split <;> rfl

theorem step_start (E : Env) (r : Nat → Nat) (t : List Call) (fs : FS) :
    agent_query.step E { pc := agent_query.Pc.start, rand := r, trace := t } fs =
      ({ pc := agent_query.Pc.data_check, rand := r,
         trace := (make_dir agent_query.DIR { fs := fs, rand := r, trace := t }).trace },
       (make_dir agent_query.DIR { fs := fs, rand := r, trace := t }).fs) := by
  simp [agent_query.step, make_dir_rand]

theorem step_data_check_missing (E : Env) (r : Nat → Nat) (t : List Call) (fs : FS)
    (h : fs_exists fs agent_query.DATA_FILE = false) :
    agent_query.step E { pc := agent_query.Pc.data_check, rand := r, trace := t } fs =
      ({ pc := agent_query.Pc.generate, rand := r,
         trace := t ++ [Call.fs_exists agent_query.DATA_FILE false] }, fs) := by
  simp [agent_query.step, h]

theorem step_generate (E : Env) (r : Nat → Nat) (t : List Call) (fs : FS) :
    agent_query.step E { pc := agent_query.Pc.generate, rand := r, trace := t } fs =
      ({ pc := agent_query.Pc.index_check,
         rand := rand_advance r (agent_query.NUM_POINTS * agent_query.DIM % SIZE_T_MOD),
         trace := t ++ [Call.generate_data agent_query.DATA_FILE agent_query.NUM_POINTS
           agent_query.DIM] },
       (generate_data E.RAND_MAX r fs agent_query.DATA_FILE agent_query.NUM_POINTS
         agent_query.DIM).1) := by
  simp [agent_query.step, call_generate, generate_data]

theorem step_index_check_missing (E : Env) (r : Nat → Nat) (t : List Call) (fs : FS)
    (h : fs_exists fs agent_query.INDEX_CHECK_FILE = false) :
    agent_query.step E { pc := agent_query.Pc.index_check, rand := r, trace := t } fs =
      ({ pc := agent_query.Pc.build, rand := r,
         trace := t ++ [Call.fs_exists agent_query.INDEX_CHECK_FILE false] }, fs) := by
  simp [agent_query.step, h]

theorem step_build (E : Env) (r : Nat → Nat) (t : List Call) (fs : FS) :
    agent_query.step E { pc := agent_query.Pc.build, rand := r, trace := t } fs =
      ({ pc := if (E.system agent_query.cmd fs).1 ≠ 0 then agent_query.Pc.exited 1
               else agent_query.Pc.load,
         rand := r,
         trace := t ++ [Call.system agent_query.cmd (E.system agent_query.cmd fs).1] ++
           (if (E.system agent_query.cmd fs).1 ≠ 0 then
             [Call.cerr ("Error: Build failed! Check path: " ++ agent_query.BUILDER_BIN ++ "\n")]
            else []) },
       (E.system agent_query.cmd fs).2) := by
  by_cases hb : (E.system agent_query.cmd fs).1 = 0 <;>
    simp [agent_query.step, call_system, put_cerr, hb]

theorem make_dir_of_exists (dir : String) (s : State) (h : fs_exists s.fs dir = true) :
    make_dir dir s = { s with trace := s.trace ++ [Call.fs_exists dir true] } := by
  simp [make_dir, h]

theorem lockstep_race (E : Env) (fs : FS) (ra rb : Nat → Nat)
    (hd : fs_exists fs agent_query.DATA_FILE = false)
    (hi : fs_exists fs agent_query.INDEX_CHECK_FILE = false) :
    (Pair.run E Pair.lockstep (Pair.init fs ra rb)).a.trace =
        (make_dir agent_query.DIR { fs := fs, rand := ra, trace := [] }).trace ++
          [Call.fs_exists agent_query.DATA_FILE false,
           Call.generate_data agent_query.DATA_FILE agent_query.NUM_POINTS agent_query.DIM,
           Call.fs_exists agent_query.INDEX_CHECK_FILE false,
           Call.system agent_query.cmd
             (E.system agent_query.cmd (Pair.fs_at_build E fs ra rb)).1] ++
          (if (E.system agent_query.cmd (Pair.fs_at_build E fs ra rb)).1 ≠ 0 then
            [Call.cerr ("Error: Build failed! Check path: " ++ agent_query.BUILDER_BIN ++ "\n")]
           else []) ∧
    (Pair.run E Pair.lockstep (Pair.init fs ra rb)).b.trace =
        [Call.fs_exists agent_query.DIR true,
         Call.fs_exists agent_query.DATA_FILE false,
         Call.generate_data agent_query.DATA_FILE agent_query.NUM_POINTS agent_query.DIM,
         Call.fs_exists agent_query.INDEX_CHECK_FILE false,
         Call.system agent_query.cmd
           (E.system agent_query.cmd
             (E.system agent_query.cmd (Pair.fs_at_build E fs ra rb)).2).1] ++
          (if (E.system agent_query.cmd
              (E.system agent_query.cmd (Pair.fs_at_build E fs ra rb)).2).1 ≠ 0 then
            [Call.cerr ("Error: Build failed! Check path: " ++ agent_query.BUILDER_BIN ++ "\n")]
           else []) := by
  have n1 : agent_query.DATA_FILE ≠ agent_query.DIR := by decide
  have n2 : agent_query.INDEX_CHECK_FILE ≠ agent_query.DIR := by decide
  have n3 : agent_query.INDEX_CHECK_FILE ≠ agent_query.DATA_FILE := by decide
  have e1 := make_dir_exists_self agent_query.DIR { fs := fs, rand := ra, trace := [] }
  have e2 := make_dir_exists_ne agent_query.DIR { fs := fs, rand := ra, trace := [] } _ n1
  have e3 := make_dir_exists_ne agent_query.DIR { fs := fs, rand := ra, trace := [] } _ n2
  simp only [hd, hi] at e2 e3
  have e4 : fs_exists (Pair.fs_at_build E fs ra rb) agent_query.INDEX_CHECK_FILE = false := by
    unfold Pair.fs_at_build
    rw [generate_data_exists_ne _ _ _ _ _ _ _ n3, generate_data_exists_ne _ _ _ _ _ _ _ n3, e3]
  have m2 := make_dir_of_exists agent_query.DIR
    { fs := (make_dir agent_query.DIR { fs := fs, rand := ra, trace := [] }).fs,
      rand := rb, trace := [] } e1
  have hrun : Pair.run E Pair.lockstep (Pair.init fs ra rb) =
      Pair.step E (Pair.step E (Pair.step E (Pair.step E (Pair.step E (Pair.step E
        (Pair.step E (Pair.step E (Pair.step E (Pair.step E (Pair.init fs ra rb) true) false)
          true) false) true) false) true) false) true) false := rfl
  rw [hrun]
  simp only [Pair.step, Pair.init, agent_query.Proc.init, if_true, Bool.false_eq_true, if_false,
    step_start, m2, step_data_check_missing E _ _ _ e2, step_generate]
  rw [← Pair.fs_at_build]
  simp only [step_index_check_missing E _ _ _ e4, step_build, List.nil_append,
    List.append_assoc, List.cons_append, List.singleton_append, and_self]

/-- C10: for two consumer runs started on a file system in which neither the data
file nor the sentinel file exists there is an interleaving of their steps in which
each run finds the data file missing and calls `generate_data`, and each run finds
the sentinel missing and invokes the build command, with the same command line and
hence the same data path and index prefix; each run generates once and builds once. -/
theorem consumers_can_race (E : Env) (fs : FS) (ra rb : Nat → Nat)
    (hd : fs_exists fs agent_query.DATA_FILE = false)
    (hi : fs_exists fs agent_query.INDEX_CHECK_FILE = false) :
    ∃ sched : List Bool,
      (Call.fs_exists agent_query.DATA_FILE false
          ∈ (Pair.run E sched (Pair.init fs ra rb)).a.trace ∧
        Call.fs_exists agent_query.DATA_FILE false
          ∈ (Pair.run E sched (Pair.init fs ra rb)).b.trace) ∧
      (generate_calls (Pair.run E sched (Pair.init fs ra rb)).a.trace = 1 ∧
        generate_calls (Pair.run E sched (Pair.init fs ra rb)).b.trace = 1) ∧
      (Call.fs_exists agent_query.INDEX_CHECK_FILE false
          ∈ (Pair.run E sched (Pair.init fs ra rb)).a.trace ∧
        Call.fs_exists agent_query.INDEX_CHECK_FILE false
          ∈ (Pair.run E sched (Pair.init fs ra rb)).b.trace) ∧
      (build_calls (Pair.run E sched (Pair.init fs ra rb)).a.trace = 1 ∧
        build_calls (Pair.run E sched (Pair.init fs ra rb)).b.trace = 1) ∧
      (∃ ret, Call.system agent_query.cmd ret
          ∈ (Pair.run E sched (Pair.init fs ra rb)).a.trace) ∧
      (∃ ret, Call.system agent_query.cmd ret
          ∈ (Pair.run E sched (Pair.init fs ra rb)).b.trace) := by
  obtain ⟨ha, hb⟩ := lockstep_race E fs ra rb hd hi
  have hc := make_dir_trace_counts agent_query.DIR { fs := fs, rand := ra, trace := [] }
  simp only [generate_calls, build_calls] at hc
  refine ⟨Pair.lockstep, ⟨?_, ?_⟩, ⟨?_, ?_⟩, ⟨?_, ?_⟩, ⟨?_, ?_⟩,
    ⟨(E.system agent_query.cmd (Pair.fs_at_build E fs ra rb)).1, ?_⟩,
    ⟨(E.system agent_query.cmd
      (E.system agent_query.cmd (Pair.fs_at_build E fs ra rb)).2).1, ?_⟩⟩
  · rw [ha]; simp
  · rw [hb]; simp
  · rw [ha]
    simp only [generate_calls, List.countP_append, hc.1]
    split <;> simp [List.countP_cons, Call.is_generate]
  · rw [hb]
    simp only [generate_calls, List.countP_append]
    split <;> simp [List.countP_cons, Call.is_generate]
  · rw [ha]; simp
  · rw [hb]; simp
  · rw [ha]
    simp only [build_calls, List.countP_append, hc.2]
    split <;> simp [List.countP_cons, Call.is_system]
  · rw [hb]
    simp only [build_calls, List.countP_append]
    split <;> simp [List.countP_cons, Call.is_system]
  · rw [ha]; simp
  · rw [hb]; simp

theorem consumers_can_race_witness :
    ∃ sched : List Bool,
      (Call.fs_exists agent_query.DATA_FILE false
          ∈ (Pair.run Env.quiet sched (Pair.init FS.blank (fun _ => 0) (fun _ => 1))).a.trace ∧
        Call.fs_exists agent_query.DATA_FILE false
          ∈ (Pair.run Env.quiet sched (Pair.init FS.blank (fun _ => 0) (fun _ => 1))).b.trace) ∧
      (generate_calls
          (Pair.run Env.quiet sched (Pair.init FS.blank (fun _ => 0) (fun _ => 1))).a.trace = 1 ∧
        generate_calls
          (Pair.run Env.quiet sched (Pair.init FS.blank (fun _ => 0) (fun _ => 1))).b.trace = 1) ∧
      (Call.fs_exists agent_query.INDEX_CHECK_FILE false
          ∈ (Pair.run Env.quiet sched (Pair.init FS.blank (fun _ => 0) (fun _ => 1))).a.trace ∧
        Call.fs_exists agent_query.INDEX_CHECK_FILE false
          ∈ (Pair.run Env.quiet sched (Pair.init FS.blank (fun _ => 0) (fun _ => 1))).b.trace) ∧
      (build_calls
          (Pair.run Env.quiet sched (Pair.init FS.blank (fun _ => 0) (fun _ => 1))).a.trace = 1 ∧
        build_calls
          (Pair.run Env.quiet sched (Pair.init FS.blank (fun _ => 0) (fun _ => 1))).b.trace = 1) ∧
      (∃ ret, Call.system agent_query.cmd ret
          ∈ (Pair.run Env.quiet sched (Pair.init FS.blank (fun _ => 0) (fun _ => 1))).a.trace) ∧
      (∃ ret, Call.system agent_query.cmd ret
          ∈ (Pair.run Env.quiet sched (Pair.init FS.blank (fun _ => 0) (fun _ => 1))).b.trace) :=
  consumers_can_race Env.quiet FS.blank (fun _ => 0) (fun _ => 1) rfl rfl

/-! ## The two gates of the consumer -/

theorem fs_put_node_ne (fs : FS) (p q : String) (x : Node) (h : q ≠ p) :
    (fs_put fs p x).node q = fs.node q := by
  simp [fs_put, h]

theorem make_dir_node_ne (dir : String) (s : State) (q : String) (h : q ≠ dir) :
    (make_dir dir s).fs.node q = s.fs.node q := by
  unfold make_dir
  split
  · rfl
  · exact fs_put_node_ne _ _ _ _ h

theorem generate_data_node_ne (RM : Nat) (rand : Nat → Nat) (fs : FS) (path : String)
    (n d : Nat) (q : String) (h : q ≠ path) :
    (generate_data RM rand fs path n d).1.node q = fs.node q := by
  unfold generate_data
  dsimp only
  split
  · exact fs_put_node_ne _ _ _ _ h
  · rfl

theorem before_index_check_sentinel (E : Env) (fs : FS) (rand : Nat → Nat) :
    (agent_query.before_index_check E fs rand).fs.node agent_query.INDEX_CHECK_FILE
      = fs.node agent_query.INDEX_CHECK_FILE := by
  have n2 : agent_query.INDEX_CHECK_FILE ≠ agent_query.DIR := by decide
  have n3 : agent_query.INDEX_CHECK_FILE ≠ agent_query.DATA_FILE := by decide
  have h1 := make_dir_node_ne agent_query.DIR { fs := fs, rand := rand, trace := [] } _ n2
  unfold agent_query.before_index_check agent_query.data_check
  split
  · exact h1
  · simp only [call_generate]
    rw [generate_data_node_ne _ _ _ _ _ _ _ n3]
    exact h1

theorem before_index_check_sentinel_exists (E : Env) (fs : FS) (rand : Nat → Nat) :
    fs_exists (agent_query.before_index_check E fs rand).fs agent_query.INDEX_CHECK_FILE
      = fs_exists fs agent_query.INDEX_CHECK_FILE := by
  simp only [fs_exists, before_index_check_sentinel]

theorem before_index_check_generates (E : Env) (fs : FS) (rand : Nat → Nat)
    (hd : fs_exists fs agent_query.DATA_FILE = false) :
    (agent_query.before_index_check E fs rand).trace.filter Call.is_generate =
      [Call.generate_data agent_query.DATA_FILE agent_query.NUM_POINTS agent_query.DIM] := by
  have n1 : agent_query.DATA_FILE ≠ agent_query.DIR := by decide
  have e2 := make_dir_exists_ne agent_query.DIR { fs := fs, rand := rand, trace := [] } _ n1
  simp only [hd] at e2
  have hm := make_dir_trace_flags agent_query.DIR { fs := fs, rand := rand, trace := [] }
    Call.is_generate (fun _ _ => rfl) (fun _ => rfl)
  simp [agent_query.before_index_check, agent_query.data_check, e2, call_generate,
    List.filter_append, List.filter_cons, hm, Call.is_generate]

theorem main_fs_sentinel_kept (E : Env) (fs : FS) (rand : Nat → Nat)
    (hi : fs_exists fs agent_query.INDEX_CHECK_FILE = true) :
    (agent_query.main E fs rand).fs = (agent_query.before_index_check E fs rand).fs ∧
    (agent_query.main E fs rand).trace.filter Call.is_system = [] ∧
    (agent_query.main E fs rand).trace.filter Call.is_generate =
      (agent_query.before_index_check E fs rand).trace.filter Call.is_generate ∧
    (agent_query.main E fs rand).trace.filter Call.is_load =
      [Call.load agent_query.NUM_THREADS agent_query.INDEX_PREFIX
        (E.load agent_query.NUM_THREADS agent_query.INDEX_PREFIX
          (agent_query.before_index_check E fs rand).fs)] := by
  have hs := before_index_check_sentinel_exists E fs rand
  rw [hi] at hs
  have hq2 := before_index_check_flags E fs rand Call.is_system
    (fun _ _ => rfl) (fun _ => rfl) (fun _ _ _ => rfl)
  have hq3 := before_index_check_flags E fs rand Call.is_load
    (fun _ _ => rfl) (fun _ => rfl) (fun _ _ _ => rfl)
  unfold agent_query.main
  rcases index_check_cases E (agent_query.before_index_check E fs rand) with
    ⟨-, heq⟩ | ⟨hf, -, -⟩ | ⟨hf, -, -⟩
  · rcases load_and_search_cases E
      { agent_query.before_index_check E fs rand with
        trace := (agent_query.before_index_check E fs rand).trace ++
          [Call.fs_exists agent_query.INDEX_CHECK_FILE true] } with ⟨-, hl⟩ | ⟨hz, hl⟩
    · simp [heq, hl, List.filter_append, List.filter_cons, hq2, hq3, Call.is_system,
        Call.is_load, Call.is_generate]
    · simp [heq, hl, List.filter_append, List.filter_cons, hq2, hq3, Call.is_system,
        Call.is_load, Call.is_generate, hz]
  · rw [hs] at hf; cases hf
  · rw [hs] at hf; cases hf

theorem build_calls_by_sentinel (E : Env) (fs : FS) (rand : Nat → Nat) :
    build_calls (agent_query.main E fs rand).trace =
      if fs_exists (agent_query.before_index_check E fs rand).fs agent_query.INDEX_CHECK_FILE
      then 0 else 1 := by
  have hq2 := before_index_check_flags E fs rand Call.is_system
    (fun _ _ => rfl) (fun _ => rfl) (fun _ _ _ => rfl)
  simp only [build_calls, countP_eq_filter_length]
  unfold agent_query.main
  rcases index_check_cases E (agent_query.before_index_check E fs rand) with
    ⟨hf, heq⟩ | ⟨hf, -, heq⟩ | ⟨hf, -, heq⟩
  · rcases load_and_search_cases E
      { agent_query.before_index_check E fs rand with
        trace := (agent_query.before_index_check E fs rand).trace ++
          [Call.fs_exists agent_query.INDEX_CHECK_FILE true] } with ⟨-, hl⟩ | ⟨-, hl⟩ <;>
      simp [heq, hl, hf, List.filter_append, List.filter_cons, hq2, Call.is_system]
  · simp [heq, hf, List.filter_append, List.filter_cons, hq2, Call.is_system]
  · rcases load_and_search_cases E
      { fs := (E.system agent_query.cmd (agent_query.before_index_check E fs rand).fs).2,
        rand := (agent_query.before_index_check E fs rand).rand,
        trace := (agent_query.before_index_check E fs rand).trace ++
          [Call.fs_exists agent_query.INDEX_CHECK_FILE false,
           Call.system agent_query.cmd 0] } with ⟨-, hl⟩ | ⟨-, hl⟩ <;>
      simp [heq, hl, hf, List.filter_append, List.filter_cons, hq2, Call.is_system]

theorem before_index_check_stages (E : Env) (fs : FS) (rand : Nat → Nat)
    (hd : fs_exists fs agent_query.DATA_FILE = false) :
    (agent_query.before_index_check E fs rand).trace.filter Call.is_stage =
      [Call.generate_data agent_query.DATA_FILE agent_query.NUM_POINTS agent_query.DIM] := by
  have n1 : agent_query.DATA_FILE ≠ agent_query.DIR := by decide
  have e2 := make_dir_exists_ne agent_query.DIR { fs := fs, rand := rand, trace := [] } _ n1
  simp only [hd] at e2
  have hm := make_dir_trace_flags agent_query.DIR { fs := fs, rand := rand, trace := [] }
    Call.is_stage (fun _ _ => rfl) (fun _ => rfl)
  simp [agent_query.before_index_check, agent_query.data_check, e2, call_generate,
    List.filter_append, List.filter_cons, hm, Call.is_stage, Call.is_generate, Call.is_system,
    Call.is_load]

theorem main_stages_sentinel_kept (E : Env) (fs : FS) (rand : Nat → Nat)
    (hi : fs_exists fs agent_query.INDEX_CHECK_FILE = true) :
    (agent_query.main E fs rand).trace.filter Call.is_stage =
      (agent_query.before_index_check E fs rand).trace.filter Call.is_stage ++
      [Call.load agent_query.NUM_THREADS agent_query.INDEX_PREFIX
        (E.load agent_query.NUM_THREADS agent_query.INDEX_PREFIX
          (agent_query.before_index_check E fs rand).fs)] := by
  have hs := before_index_check_sentinel_exists E fs rand
  rw [hi] at hs
  unfold agent_query.main
  rcases index_check_cases E (agent_query.before_index_check E fs rand) with
    ⟨-, heq⟩ | ⟨hf, -, -⟩ | ⟨hf, -, -⟩
  · rcases load_and_search_cases E
      { agent_query.before_index_check E fs rand with
        trace := (agent_query.before_index_check E fs rand).trace ++
          [Call.fs_exists agent_query.INDEX_CHECK_FILE true] } with ⟨-, hl⟩ | ⟨hz, hl⟩
    · simp [heq, hl, List.filter_append, List.filter_cons, Call.is_stage, Call.is_system,
        Call.is_load, Call.is_generate]
    · simp [heq, hl, List.filter_append, List.filter_cons, Call.is_stage, Call.is_system,
        Call.is_load, Call.is_generate, hz]
  · rw [hs] at hf; cases hf
  · rw [hs] at hf; cases hf

/-- C11: the two gates of the consumer are independent.  When the data file is
absent and the sentinel file is present, a consumer run calls `generate_data`
exactly once, never invokes the build command, and then calls `load` on the index
prefix, whose sentinel is the one found at the start; the stages of the run are the
generation followed by the load.  In every run, whatever the data-file check found,
the build command is invoked once when the sentinel is absent at the index check
and not at all when it is present, and the sentinel is then present exactly when
it was at the start. -/
theorem consumer_gates_independent (E : Env) (fs : FS) (rand : Nat → Nat)
    (hd : fs_exists fs agent_query.DATA_FILE = false)
    (hi : fs_exists fs agent_query.INDEX_CHECK_FILE = true) :
    generate_calls (agent_query.main E fs rand).trace = 1 ∧
    build_calls (agent_query.main E fs rand).trace = 0 ∧
    load_calls (agent_query.main E fs rand).trace = 1 ∧
    (agent_query.main E fs rand).trace.filter Call.is_stage =
      [Call.generate_data agent_query.DATA_FILE agent_query.NUM_POINTS agent_query.DIM,
       Call.load agent_query.NUM_THREADS agent_query.INDEX_PREFIX
        (E.load agent_query.NUM_THREADS agent_query.INDEX_PREFIX
          (agent_query.main E fs rand).fs)] ∧
    (agent_query.main E fs rand).fs.node agent_query.INDEX_CHECK_FILE
      = fs.node agent_query.INDEX_CHECK_FILE ∧
    (∀ (fs2 : FS) (rand2 : Nat → Nat),
      (build_calls (agent_query.main E fs2 rand2).trace =
        if fs_exists (agent_query.before_index_check E fs2 rand2).fs
          agent_query.INDEX_CHECK_FILE then 0 else 1) ∧
      fs_exists (agent_query.before_index_check E fs2 rand2).fs agent_query.INDEX_CHECK_FILE
        = fs_exists fs2 agent_query.INDEX_CHECK_FILE) := by
  obtain ⟨hfs, hsys, hgen, hload⟩ := main_fs_sentinel_kept E fs rand hi
  have hg := before_index_check_generates E fs rand hd
  have hst := main_stages_sentinel_kept E fs rand hi
  rw [before_index_check_stages E fs rand hd] at hst
  refine ⟨?_, ?_, ?_, ?_, ?_, fun fs2 rand2 =>
    ⟨build_calls_by_sentinel E fs2 rand2, before_index_check_sentinel_exists E fs2 rand2⟩⟩
  · rw [generate_calls, countP_eq_filter_length, hgen, hg]; rfl
  · rw [build_calls, countP_eq_filter_length, hsys]; rfl
  · rw [load_calls, countP_eq_filter_length, hload]; rfl
  · rw [hst, hfs]; rfl
  · rw [hfs]; exact before_index_check_sentinel E fs rand

theorem consumer_gates_independent_witness :
    generate_calls (agent_query.main Env.quiet agent_query.index_only_fs (fun _ => 0)).trace = 1 ∧
    build_calls (agent_query.main Env.quiet agent_query.index_only_fs (fun _ => 0)).trace = 0 ∧
    load_calls (agent_query.main Env.quiet agent_query.index_only_fs (fun _ => 0)).trace = 1 :=
  have t := consumer_gates_independent Env.quiet agent_query.index_only_fs (fun _ => 0)
    (by decide) (by decide)
  ⟨t.1, t.2.1, t.2.2.1⟩

end AdaDisk
